import Mathlib

/-!
# Verification of the capital-suburban subsidy comparison calculation engine

Shallow embedding of the subsidy calculation engine
(`src/lib/calculator.ts`, `src/lib/calculateMedicalSubsidy.ts`,
`src/lib/utils.ts`, `src/lib/dataLoader.ts`) of the
`capital-cuburban-cubsidy-comparison` repository, together with proofs of
the testable properties stated in the specification.

Modelling conventions:
* JavaScript numbers are modelled as `Int` (all engine arithmetic on
  amounts, ages and years is integer arithmetic); the medical-subsidy
  module multiplies by the exact rates 0.2 / 0.3 / 1.0 / 0.0 and rounds
  once at the end, which is modelled with exact rational arithmetic `ℚ`
  and `round : ℚ → ℤ` (`Math.round x = ⌊x + 1/2⌋` for the non-negative
  values arising here).
* Optional TypeScript fields become `Option`; the `??` defaults of the
  source are applied with `Option.getD` at exactly the places the source
  applies them.
* `throw` becomes `Except.error`; functions that cannot throw stay pure.
* The static JSON catalogs (`tokyo.json`, …, `medical-costs.json`) are not
  part of the source tree; the engine is therefore parameterised by the
  medical-cost table (`mc : List AgeMedicalCost`) and by the policy
  catalog (`catalog : Prefecture → List Subsidy`), exactly matching the
  spec's view of those as external data collaborators.
-/

-- ==========================================
-- Data model (src/types/subsidy.ts)
-- ==========================================

inductive Prefecture
  | tokyo
  | saitama
  | chiba
  | kanagawa
deriving DecidableEq, Repr

inductive BirthOrder
  | first
  | second
  | third_or_more
deriving DecidableEq, Repr

/-- Birth-order values allowed in a `ChildCondition` (the child enum plus `'any'`). -/
inductive CondBirthOrder
  | first
  | second
  | third_or_more
  | any
deriving DecidableEq, Repr

inductive SubsidyType
  | childbirth_support
  | childcare_allowance
  | medical_expense
  | school_lunch
  | childcare_fee
  | high_school_tuition
  | university_tuition
  | support018
  | other
deriving DecidableEq, Repr

inductive Frequency
  | once
  | monthly
  | yearly
deriving DecidableEq, Repr

inductive IncomeLimitType
  | none
  | single
  | tiered
deriving DecidableEq, Repr

structure IncomeTier where
  threshold : Int
  amount : Int
deriving DecidableEq, Repr

structure IncomeLimit where
  type : IncomeLimitType
  threshold : Option Int := Option.none
  tiers : Option (List IncomeTier) := Option.none
deriving DecidableEq, Repr

structure ChildCondition where
  minAge : Option Int := Option.none
  maxAge : Option Int := Option.none
  birthOrder : Option CondBirthOrder := Option.none
deriving DecidableEq, Repr

structure AgeBasedAmount where
  minAge : Int
  maxAge : Int
  amount : Int
  frequency : Frequency
deriving DecidableEq, Repr

/-- `Subsidy.amount : number | 'variable'`. -/
inductive Amount
  | fixed (n : Int)
  | variable
deriving DecidableEq, Repr

/-- Numeric value of an amount; only consulted after the source has ruled
out the `'variable'` sentinel (where TypeScript narrows the union to `number`). -/
def Amount.val : Amount → Int
  | .fixed n => n
  | .variable => 0

/-- A policy (`Subsidy` / `VariableAmountSubsidy` merged, as the engine
treats them: `isVariableAmountSubsidy` discriminates purely on the amount
sentinel).  Display-only fields (id, name, category, description, metadata)
are omitted as they never influence the computation. -/
structure Subsidy where
  type : SubsidyType
  prefecture : Prefecture
  amount : Amount
  frequency : Frequency
  incomeLimit : IncomeLimit
  childCondition : ChildCondition
  ageBasedAmounts : List AgeBasedAmount := []
deriving DecidableEq, Repr

/-- Type guard `isVariableAmountSubsidy` (src/types/subsidy.ts): checks the
amount sentinel only. -/
def isVariableAmountSubsidy (s : Subsidy) : Bool :=
  s.amount = Amount.variable

structure ChildInfo where
  age : Int
  birthOrder : BirthOrder
deriving DecidableEq, Repr

structure CalculationInput where
  householdIncome : Int
  children : List ChildInfo
deriving DecidableEq, Repr

structure AgeRangeInfo where
  fromAge : Int
  toAge : Int
  years : Int
deriving DecidableEq, Repr

structure AppliedPolicy where
  policy : Subsidy
  calculatedAmount : Int
  yearsApplied : Int
  ageRange : Option AgeRangeInfo
  maxAmount : Int
  receivedAmount : Int
deriving DecidableEq, Repr

/-- The per-jurisdiction result.  The `calculatedAt` ISO timestamp of the
source is a wall-clock reading with no computational content and is
omitted. -/
structure CalculationResult where
  prefecture : Prefecture
  appliedPolicies : List AppliedPolicy
  totalAmount : Int
  totalMaxAmount : Int
  rank : Int
deriving DecidableEq, Repr

-- ==========================================
-- src/lib/utils.ts
-- ==========================================

/-- `calculateAmountByFrequency` (src/lib/utils.ts). -/
def calculateAmountByFrequency (amount : Int) (frequency : Frequency) : Int :=
  match frequency with
  | .once => amount
  | .monthly => amount * 12
  | .yearly => amount

-- ==========================================
-- Age-based helpers (src/lib/calculator.ts)
-- ==========================================

/-- `CHILDCARE_ALLOWANCE_THIRD_CHILD_MONTHLY` (src/lib/calculator.ts). -/
def CHILDCARE_ALLOWANCE_THIRD_CHILD_MONTHLY : Int := 30000

/-- `calculateYearsFromCurrentAge` (src/lib/calculator.ts). -/
def calculateYearsFromCurrentAge (currentAge minAge maxAge : Int) : Int :=
  if currentAge > maxAge then 0
  else maxAge - max currentAge minAge + 1

/-- `calculateAgeRangeInfo` (src/lib/calculator.ts). -/
def calculateAgeRangeInfo (currentAge minAge maxAge : Int) : AgeRangeInfo :=
  { fromAge := max currentAge minAge
    toAge := maxAge
    years := calculateYearsFromCurrentAge currentAge minAge maxAge }

-- ==========================================
-- src/lib/calculateMedicalSubsidy.ts
-- ==========================================

/-- One row of `medical-costs.json` (`AgeMedicalCost` in src/types/subsidy.ts). -/
structure AgeMedicalCost where
  age : Int
  annualCost : Int
deriving DecidableEq, Repr

/-- `getAssistanceAge`: 18 for every prefecture. -/
def getAssistanceAge (_pref : Prefecture) : Int := 18

/-- `getAssistanceRate`: 100% for Tokyo/Saitama/Chiba, 0% for Kanagawa. -/
def getAssistanceRate : Prefecture → ℚ
  | .tokyo => 1
  | .saitama => 1
  | .chiba => 1
  | .kanagawa => 0

/-- `getSelfPaymentRate`: 20% up to age 5, 30% from age 6. -/
def getSelfPaymentRate (age : Int) : ℚ :=
  if age ≤ 5 then 2/10 else 3/10

/-- `getMedicalCostByAge`: linear lookup by age. -/
def getMedicalCostByAge (data : List AgeMedicalCost) (age : Int) :
    Option AgeMedicalCost :=
  data.find? (fun item => item.age = age)

/-- One iteration of the accumulation loop of `calculateMedicalSubsidy`:
ages with no table row contribute nothing (`if (medicalCost)`). -/
def medicalTermQ (mc : List AgeMedicalCost) (pref : Prefecture) (age : Int) : ℚ :=
  match getMedicalCostByAge mc age with
  | Option.some c =>
      (c.annualCost : ℚ) * getSelfPaymentRate age * getAssistanceRate pref
  | Option.none => 0

/-- The whole `for (age = currentAge; age <= maxAge; age++)` loop as a sum
over the inclusive integer range. -/
def medicalSumQ (mc : List AgeMedicalCost) (pref : Prefecture)
    (startAge endAge : Int) : ℚ :=
  ∑ j ∈ Finset.Icc startAge endAge, medicalTermQ mc pref j

/-- `calculateMedicalSubsidy` (src/lib/calculateMedicalSubsidy.ts). -/
def calculateMedicalSubsidy (mc : List AgeMedicalCost) (currentAge : Int)
    (pref : Prefecture) : Int :=
  if currentAge < 0 ∨ currentAge > 18 then 0
  else
    let maxAge := getAssistanceAge pref
    if currentAge > maxAge then 0
    else round (medicalSumQ mc pref currentAge maxAge)

-- ==========================================
-- Eligibility filters (src/lib/calculator.ts)
-- ==========================================

/-- `checkTieredIncomeLimit`: `!tiers || tiers.length === 0` is never
eligible; otherwise some tier's threshold must strictly exceed the income. -/
def checkTieredIncomeLimit (householdIncome : Int)
    (tiers : Option (List IncomeTier)) : Bool :=
  match tiers with
  | Option.none => false
  | Option.some ts =>
      if ts.isEmpty then false
      else ts.any (fun tier => householdIncome < tier.threshold)

/-- The predicate of `filterByIncomeLimit`, one branch per `if` of the
source.  `incomeLimit.threshold` is a JS truthiness test: an absent or
zero threshold falls through to the final `return false`. -/
def incomeLimitPasses (householdIncome : Int) (s : Subsidy) : Bool :=
  match s.incomeLimit.type with
  | .none => true
  | .single =>
      match s.incomeLimit.threshold with
      | Option.some t => if t ≠ 0 then householdIncome < t else false
      | Option.none => false
  | .tiered => checkTieredIncomeLimit householdIncome s.incomeLimit.tiers

/-- `filterByIncomeLimit` (src/lib/calculator.ts). -/
def filterByIncomeLimit (subsidies : List Subsidy) (householdIncome : Int) :
    List Subsidy :=
  subsidies.filter (incomeLimitPasses householdIncome)

/-- Condition birth order versus a child's birth order
(`condition.birthOrder !== child.birthOrder`). -/
def birthOrderEq : CondBirthOrder → BirthOrder → Bool
  | .first, .first => true
  | .second, .second => true
  | .third_or_more, .third_or_more => true
  | _, _ => false

/-- The recurring `if (birthOrder && birthOrder !== 'any') return
birthOrder === child.birthOrder; return true` birth-order-only filter used
by the maximum/received calculators. -/
def birthOrderOk (cond : Option CondBirthOrder) (b : BirthOrder) : Bool :=
  match cond with
  | Option.some c => if c = CondBirthOrder.any then true else birthOrderEq c b
  | Option.none => true

/-- `matchesChildCondition` (src/lib/calculator.ts): birth order must
match if specified, and the policy's age band (defaults 0/18) must overlap
the childhood window [0,18].  The child's current age is not consulted. -/
def matchesChildCondition (child : ChildInfo) (condition : ChildCondition) :
    Bool :=
  if birthOrderOk condition.birthOrder child.birthOrder then
    let childMinAge : Int := 0
    let childMaxAge : Int := 18
    let policyMinAge := condition.minAge.getD 0
    let policyMaxAge := condition.maxAge.getD 18
    if childMaxAge < policyMinAge ∨ childMinAge > policyMaxAge then false
    else true
  else false

/-- `filterByChildConditions` (src/lib/calculator.ts). -/
def filterByChildConditions (subsidies : List Subsidy)
    (children : List ChildInfo) : List Subsidy :=
  subsidies.filter (fun s =>
    children.any (fun child => matchesChildCondition child s.childCondition))

-- ==========================================
-- Maximum entitlement (src/lib/calculator.ts)
-- ==========================================

/-- Full 0-to-ceiling value of one age band, as accumulated by the
variable branch of `calculateMaxAmount`. -/
def bandFullAmount (r : AgeBasedAmount) : Int :=
  calculateAmountByFrequency r.amount r.frequency * (r.maxAge - r.minAge + 1)

/-- `calculateMaxMedicalExpenseSubsidy`. -/
def calculateMaxMedicalExpenseSubsidy (mc : List AgeMedicalCost) (s : Subsidy)
    (children : List ChildInfo) : Int :=
  let eligibleChildren := children.filter
    (fun child => birthOrderOk s.childCondition.birthOrder child.birthOrder)
  if eligibleChildren.isEmpty then 0
  else
    (eligibleChildren.map
      (fun _ => calculateMedicalSubsidy mc 0 s.prefecture)).sum

/-- `calculateMaxChildcareFeeSubsidy`. -/
def calculateMaxChildcareFeeSubsidy (s : Subsidy)
    (children : List ChildInfo) : Int :=
  if s.amount = Amount.variable then 0
  else
    let eligibleChildren := children.filter
      (fun child => birthOrderOk s.childCondition.birthOrder child.birthOrder)
    if eligibleChildren.isEmpty then 0
    else
      let minAge := s.childCondition.minAge.getD 0
      let maxAge := s.childCondition.maxAge.getD 5
      let annualAmount := calculateAmountByFrequency s.amount.val s.frequency
      let years := maxAge - minAge + 1
      annualAmount * years * eligibleChildren.length

/-- The amount-per-year rule shared by the maximum and received
high-school calculators: `tiered && tiers && tiers.length > 0` selects the
first listed tier's amount, with no dependence on the household income;
everything else falls back to the frequency-normalised flat amount. -/
def highSchoolMaxAmountPerYear (s : Subsidy) : Int :=
  match s.incomeLimit.type, s.incomeLimit.tiers with
  | .tiered, Option.some (t :: _) => t.amount
  | _, _ => calculateAmountByFrequency s.amount.val s.frequency

/-- `calculateMaxHighSchoolTuition`: with a tiered income limit carrying at
least one tier the first listed tier's amount is used, irrespective of the
household income. -/
def calculateMaxHighSchoolTuition (s : Subsidy)
    (children : List ChildInfo) : Int :=
  if s.amount = Amount.variable then 0
  else
    let eligibleChildren := children.filter
      (fun child => birthOrderOk s.childCondition.birthOrder child.birthOrder)
    if eligibleChildren.isEmpty then 0
    else
      let minAge := s.childCondition.minAge.getD 15
      let maxAge := s.childCondition.maxAge.getD 18
      let years := maxAge - minAge + 1
      highSchoolMaxAmountPerYear s * years * eligibleChildren.length

/-- `calculateMaxAmount` (src/lib/calculator.ts). -/
def calculateMaxAmount (mc : List AgeMedicalCost) (s : Subsidy)
    (children : List ChildInfo) : Int :=
  if isVariableAmountSubsidy s then
    (children.map (fun child =>
      if s.type = SubsidyType.childcare_allowance ∧
          child.birthOrder = BirthOrder.third_or_more then
        (CHILDCARE_ALLOWANCE_THIRD_CHILD_MONTHLY * 12) * 19
      else
        (s.ageBasedAmounts.map bandFullAmount).sum)).sum
  else if s.amount = Amount.variable then 0
  else if s.type = SubsidyType.medical_expense then
    calculateMaxMedicalExpenseSubsidy mc s children
  else if s.type = SubsidyType.childcare_fee then
    calculateMaxChildcareFeeSubsidy s children
  else if s.type = SubsidyType.high_school_tuition then
    calculateMaxHighSchoolTuition s children
  else
    let minAge := s.childCondition.minAge.getD 0
    let maxAge := s.childCondition.maxAge.getD 18
    let eligibleChildren := children.filter
      (fun child => birthOrderOk s.childCondition.birthOrder child.birthOrder)
    if eligibleChildren.isEmpty then 0
    else
      let annualAmount := calculateAmountByFrequency s.amount.val s.frequency
      if s.frequency = Frequency.once then
        annualAmount * eligibleChildren.length
      else
        annualAmount * (maxAge - minAge + 1) * eligibleChildren.length

-- ==========================================
-- Received entitlement (src/lib/calculator.ts)
-- ==========================================

/-- Already-received part of one age band for a child of age `a`
(the inner band loop of the variable branch of `calculateReceivedAmount`). -/
def bandReceivedAmount (a : Int) (r : AgeBasedAmount) : Int :=
  if a ≤ r.minAge then 0
  else
    let receivedStartAge := r.minAge
    let receivedEndAge := min (a - 1) r.maxAge
    if receivedEndAge ≥ receivedStartAge then
      calculateAmountByFrequency r.amount r.frequency *
        (receivedEndAge - receivedStartAge + 1)
    else 0

/-- `calculateReceivedMedicalExpenseSubsidy`. -/
def calculateReceivedMedicalExpenseSubsidy (mc : List AgeMedicalCost)
    (s : Subsidy) (children : List ChildInfo) : Int :=
  let eligibleChildren := children.filter
    (fun child => birthOrderOk s.childCondition.birthOrder child.birthOrder)
  if eligibleChildren.isEmpty then 0
  else
    (eligibleChildren.map (fun child =>
      if child.age = 0 then 0
      else
        calculateMedicalSubsidy mc 0 s.prefecture -
          calculateMedicalSubsidy mc child.age s.prefecture)).sum

/-- `calculateReceivedChildcareFeeSubsidy`. -/
def calculateReceivedChildcareFeeSubsidy (s : Subsidy)
    (children : List ChildInfo) : Int :=
  if s.amount = Amount.variable then 0
  else
    let eligibleChildren := children.filter
      (fun child => birthOrderOk s.childCondition.birthOrder child.birthOrder)
    if eligibleChildren.isEmpty then 0
    else
      let minAge := s.childCondition.minAge.getD 0
      let maxAge := s.childCondition.maxAge.getD 5
      let annualAmount := calculateAmountByFrequency s.amount.val s.frequency
      (eligibleChildren.map (fun child =>
        if child.age = 0 then 0
        else if child.age > maxAge then annualAmount * (maxAge - minAge + 1)
        else if child.age > minAge then annualAmount * (child.age - minAge)
        else 0)).sum

/-- `calculateReceivedHighSchoolTuition`: prices already-received years at
the first listed tier's amount, like the maximum calculator. -/
def calculateReceivedHighSchoolTuition (s : Subsidy)
    (children : List ChildInfo) : Int :=
  if s.amount = Amount.variable then 0
  else
    let eligibleChildren := children.filter
      (fun child => birthOrderOk s.childCondition.birthOrder child.birthOrder)
    if eligibleChildren.isEmpty then 0
    else
      let minAge := s.childCondition.minAge.getD 15
      let maxAge := s.childCondition.maxAge.getD 18
      let amountPerYear := highSchoolMaxAmountPerYear s
      (eligibleChildren.map (fun child =>
        if child.age = 0 ∨ child.age ≤ minAge then 0
        else if child.age > maxAge then amountPerYear * (maxAge - minAge + 1)
        else amountPerYear * (child.age - minAge))).sum

/-- `calculateReceivedAmount` (src/lib/calculator.ts). -/
def calculateReceivedAmount (mc : List AgeMedicalCost) (s : Subsidy)
    (children : List ChildInfo) : Int :=
  if isVariableAmountSubsidy s then
    (children.map (fun child =>
      if child.age = 0 then 0
      else if s.type = SubsidyType.childcare_allowance ∧
          child.birthOrder = BirthOrder.third_or_more then
        (CHILDCARE_ALLOWANCE_THIRD_CHILD_MONTHLY * 12) * child.age
      else
        (s.ageBasedAmounts.map (bandReceivedAmount child.age)).sum)).sum
  else if s.amount = Amount.variable then 0
  else if s.type = SubsidyType.medical_expense then
    calculateReceivedMedicalExpenseSubsidy mc s children
  else if s.type = SubsidyType.childcare_fee then
    calculateReceivedChildcareFeeSubsidy s children
  else if s.type = SubsidyType.high_school_tuition then
    calculateReceivedHighSchoolTuition s children
  else
    let minAge := s.childCondition.minAge.getD 0
    let maxAge := s.childCondition.maxAge.getD 18
    let eligibleChildren := children.filter
      (fun child => birthOrderOk s.childCondition.birthOrder child.birthOrder)
    if eligibleChildren.isEmpty then 0
    else
      let annualAmount := calculateAmountByFrequency s.amount.val s.frequency
      if s.frequency = Frequency.once then
        annualAmount *
          (eligibleChildren.filter (fun child => child.age > maxAge)).length
      else
        (eligibleChildren.map (fun child =>
          if child.age = 0 then 0
          else if child.age > maxAge then annualAmount * (maxAge - minAge + 1)
          else if child.age > minAge then annualAmount * (child.age - minAge)
          else 0)).sum

-- ==========================================
-- Current entitlement (src/lib/calculator.ts)
-- ==========================================

/-- Remaining value of one age band for a child of age `a` (inner band
loop of `calculateVariableAmount` / `calculateChildcareAllowance`). -/
def bandRemainingAmount (a : Int) (r : AgeBasedAmount) : Int :=
  let years := calculateYearsFromCurrentAge a r.minAge r.maxAge
  if years > 0 then
    calculateAmountByFrequency r.amount r.frequency * years
  else 0

/-- `calculateVariableAmount` (src/lib/calculator.ts). -/
def calculateVariableAmount (s : Subsidy) (children : List ChildInfo) : Int :=
  (children.map (fun child =>
    (s.ageBasedAmounts.map (bandRemainingAmount child.age)).sum)).sum

/-- `calculateChildcareAllowance` (src/lib/calculator.ts): third and later
children get the flat elevated monthly rate over ages 0-18 instead of the
age bands. -/
def calculateChildcareAllowance (s : Subsidy) (children : List ChildInfo) :
    Int :=
  (children.map (fun child =>
    if child.birthOrder = BirthOrder.third_or_more then
      (CHILDCARE_ALLOWANCE_THIRD_CHILD_MONTHLY * 12) *
        calculateYearsFromCurrentAge child.age 0 18
    else
      (s.ageBasedAmounts.map (bandRemainingAmount child.age)).sum)).sum

/-- Result triple of the fixed-amount calculators. -/
structure FixedResult where
  amount : Int
  years : Int
  ageRange : Option AgeRangeInfo
deriving DecidableEq, Repr

/-- `calculateMedicalExpenseSubsidy` (src/lib/calculator.ts). -/
def calculateMedicalExpenseSubsidy (mc : List AgeMedicalCost) (s : Subsidy)
    (input : CalculationInput) : FixedResult :=
  let eligibleChildren := input.children.filter
    (fun child => matchesChildCondition child s.childCondition)
  if eligibleChildren.isEmpty then { amount := 0, years := 0, ageRange := Option.none }
  else
    let totalAmount := (eligibleChildren.map
      (fun child => calculateMedicalSubsidy mc child.age s.prefecture)).sum
    let minAge := s.childCondition.minAge.getD 0
    let maxAge := s.childCondition.maxAge.getD 18
    let ageRange :=
      match eligibleChildren with
      | child :: _ => Option.some (calculateAgeRangeInfo child.age minAge maxAge)
      | [] => Option.none
    { amount := totalAmount
      years := (ageRange.map AgeRangeInfo.years).getD 0
      ageRange := ageRange }

/-- `calculateChildcareFeeSubsidy` (src/lib/calculator.ts); throws on the
`'variable'` sentinel. -/
def calculateChildcareFeeSubsidy (s : Subsidy) (input : CalculationInput) :
    Except String FixedResult :=
  if s.amount = Amount.variable then
    Except.error "fixed amount calculator received a variable amount"
  else
    let eligibleChildren := input.children.filter
      (fun child => matchesChildCondition child s.childCondition)
    if eligibleChildren.isEmpty then
      Except.ok { amount := 0, years := 0, ageRange := Option.none }
    else
      let minAge := s.childCondition.minAge.getD 0
      let maxAge := s.childCondition.maxAge.getD 5
      let annualAmount := calculateAmountByFrequency s.amount.val s.frequency
      let total := (eligibleChildren.map (fun child =>
        let years := calculateYearsFromCurrentAge child.age minAge maxAge
        if years > 0 then annualAmount * years else 0)).sum
      let maxYears := eligibleChildren.foldl (fun m child =>
        let years := calculateYearsFromCurrentAge child.age minAge maxAge
        if years > 0 then max m years else m) 0
      let ageRange :=
        match eligibleChildren with
        | child :: _ => Option.some (calculateAgeRangeInfo child.age minAge maxAge)
        | [] => Option.none
      Except.ok { amount := total, years := maxYears, ageRange := ageRange }

/-- The tiered amount-per-year resolution of `calculateHighSchoolTuition`:
the first tier (in list order) whose threshold strictly exceeds the
household income wins; no match leaves the amount at 0.  The `tiers`
truthiness test of the source is satisfied by any present list, including
the empty one. -/
def highSchoolAmountPerYear (s : Subsidy) (householdIncome : Int) : Int :=
  match s.incomeLimit.type, s.incomeLimit.tiers with
  | .tiered, Option.some ts =>
      match ts.find? (fun t => householdIncome < t.threshold) with
      | Option.some t => t.amount
      | Option.none => 0
  | _, _ => calculateAmountByFrequency s.amount.val s.frequency

/-- `calculateHighSchoolTuition` (src/lib/calculator.ts); throws on the
`'variable'` sentinel. -/
def calculateHighSchoolTuition (s : Subsidy) (input : CalculationInput) :
    Except String FixedResult :=
  if s.amount = Amount.variable then
    Except.error "fixed amount calculator received a variable amount"
  else
    let eligibleChildren := input.children.filter
      (fun child => matchesChildCondition child s.childCondition)
    if eligibleChildren.isEmpty then
      Except.ok { amount := 0, years := 0, ageRange := Option.none }
    else
      let amountPerYear := highSchoolAmountPerYear s input.householdIncome
      let minAge := s.childCondition.minAge.getD 15
      let maxAge := s.childCondition.maxAge.getD 18
      let totalAmount := (eligibleChildren.map (fun child =>
        let years := calculateYearsFromCurrentAge child.age minAge maxAge
        if years > 0 then amountPerYear * years else 0)).sum
      let maxYears := eligibleChildren.foldl (fun m child =>
        let years := calculateYearsFromCurrentAge child.age minAge maxAge
        if years > 0 then max m years else m) 0
      let ageRange :=
        match eligibleChildren with
        | child :: _ => Option.some (calculateAgeRangeInfo child.age minAge maxAge)
        | [] => Option.none
      Except.ok { amount := totalAmount, years := maxYears, ageRange := ageRange }

/-- `calculateFixedAmount` (src/lib/calculator.ts): throws on the
`'variable'` sentinel, dispatches the three special policy types, and
otherwise prorates the flat amount over the remaining years (one-time
grants contribute once per eligible child). -/
def calculateFixedAmount (mc : List AgeMedicalCost) (s : Subsidy)
    (input : CalculationInput) : Except String FixedResult :=
  if s.amount = Amount.variable then
    Except.error "fixed amount calculator received a variable amount"
  else if s.type = SubsidyType.medical_expense then
    Except.ok (calculateMedicalExpenseSubsidy mc s input)
  else if s.type = SubsidyType.childcare_fee then
    calculateChildcareFeeSubsidy s input
  else if s.type = SubsidyType.high_school_tuition then
    calculateHighSchoolTuition s input
  else
    let eligibleChildren := input.children.filter
      (fun child => matchesChildCondition child s.childCondition)
    if eligibleChildren.isEmpty then
      Except.ok { amount := 0, years := 0, ageRange := Option.none }
    else
      let minAge := s.childCondition.minAge.getD 0
      let maxAge := s.childCondition.maxAge.getD 18
      let annualAmount := calculateAmountByFrequency s.amount.val s.frequency
      let totalAmount := (eligibleChildren.map (fun child =>
        let years := calculateYearsFromCurrentAge child.age minAge maxAge
        if years > 0 then
          if s.frequency = Frequency.once then annualAmount
          else annualAmount * years
        else 0)).sum
      let maxYears := eligibleChildren.foldl (fun m child =>
        let years := calculateYearsFromCurrentAge child.age minAge maxAge
        if years > 0 then
          if s.frequency = Frequency.once then max m 1 else max m years
        else m) 0
      let ageRange :=
        match eligibleChildren with
        | child :: _ => Option.some (calculateAgeRangeInfo child.age minAge maxAge)
        | [] => Option.none
      Except.ok { amount := totalAmount, years := maxYears, ageRange := ageRange }

/-- Smallest element of a non-empty integer list (`Math.min(...xs)`); the
call sites guard against the empty list. -/
def intListMin : List Int → Int
  | [] => 0
  | x :: xs => xs.foldl min x

/-- Largest element of a non-empty integer list (`Math.max(...xs)`). -/
def intListMax : List Int → Int
  | [] => 0
  | x :: xs => xs.foldl max x

/-- `calculateSubsidyAmount` (src/lib/calculator.ts): computes the current
amount, the display age range, and the maximum/received companions. -/
def calculateSubsidyAmount (mc : List AgeMedicalCost) (s : Subsidy)
    (input : CalculationInput) : Except String AppliedPolicy :=
  let maxAmount := calculateMaxAmount mc s input.children
  let receivedAmount := calculateReceivedAmount mc s input.children
  if isVariableAmountSubsidy s then
    let totalAmount :=
      if s.type = SubsidyType.childcare_allowance then
        calculateChildcareAllowance s input.children
      else
        calculateVariableAmount s input.children
    match input.children, s.ageBasedAmounts with
    | child :: _, _ :: _ =>
        let minAge := intListMin (s.ageBasedAmounts.map AgeBasedAmount.minAge)
        let maxAge := intListMax (s.ageBasedAmounts.map AgeBasedAmount.maxAge)
        let ageRange := calculateAgeRangeInfo child.age minAge maxAge
        Except.ok
          { policy := s, calculatedAmount := totalAmount
            yearsApplied := ageRange.years, ageRange := Option.some ageRange
            maxAmount := maxAmount, receivedAmount := receivedAmount }
    | _, _ =>
        Except.ok
          { policy := s, calculatedAmount := totalAmount
            yearsApplied := 0, ageRange := Option.none
            maxAmount := maxAmount, receivedAmount := receivedAmount }
  else
    match calculateFixedAmount mc s input with
    | Except.error e => Except.error e
    | Except.ok r =>
        Except.ok
          { policy := s, calculatedAmount := r.amount
            yearsApplied := r.years, ageRange := r.ageRange
            maxAmount := maxAmount, receivedAmount := receivedAmount }

-- ==========================================
-- Aggregation & ranking (src/lib/calculator.ts, src/lib/dataLoader.ts)
-- ==========================================

/-- `array.map` under exception propagation (a thrown error aborts the
whole `calculateSubsidies` call in the source). -/
def mapExcept (f : α → Except ε β) : List α → Except ε (List β)
  | [] => Except.ok []
  | a :: as =>
    match f a with
    | Except.error e => Except.error e
    | Except.ok b =>
      match mapExcept f as with
      | Except.error e => Except.error e
      | Except.ok bs => Except.ok (b :: bs)

/-- Steps 1-5 of `calculateSubsidies` after the catalog has been loaded. -/
def calculateSubsidiesCore (mc : List AgeMedicalCost)
    (policies : List Subsidy) (prefecture : Prefecture)
    (input : CalculationInput) : Except String CalculationResult :=
  let eligibleSubsidies := filterByIncomeLimit policies input.householdIncome
  let applicableSubsidies := filterByChildConditions eligibleSubsidies input.children
  match mapExcept (fun s => calculateSubsidyAmount mc s input) applicableSubsidies with
  | Except.error e => Except.error e
  | Except.ok appliedPolicies =>
      Except.ok
        { prefecture := prefecture
          appliedPolicies := appliedPolicies
          totalAmount := (appliedPolicies.map AppliedPolicy.calculatedAmount).sum
          totalMaxAmount := (appliedPolicies.map AppliedPolicy.maxAmount).sum
          rank := 0 }

/-- `calculateSubsidies` (src/lib/calculator.ts), with `loadPrefectureData`
modelled as a lookup into the externally supplied catalog. -/
def calculateSubsidies (mc : List AgeMedicalCost)
    (catalog : Prefecture → List Subsidy) (prefecture : Prefecture)
    (input : CalculationInput) : Except String CalculationResult :=
  calculateSubsidiesCore mc (catalog prefecture) prefecture input

/-- `getAllPrefectures` (src/lib/dataLoader.ts). -/
def getAllPrefectures : List Prefecture :=
  [Prefecture.tokyo, Prefecture.saitama, Prefecture.chiba, Prefecture.kanagawa]

/-- Descending order on the remaining-entitlement total, the comparator
`(a, b) => b.totalAmount - a.totalAmount` of `calculateAllSubsidies`. -/
def totalAmountGE (a b : CalculationResult) : Prop :=
  b.totalAmount ≤ a.totalAmount

instance : DecidableRel totalAmountGE := fun a b =>
  inferInstanceAs (Decidable (b.totalAmount ≤ a.totalAmount))

instance : IsTotal CalculationResult totalAmountGE :=
  ⟨fun a b => le_total b.totalAmount a.totalAmount⟩

instance : IsTrans CalculationResult totalAmountGE :=
  ⟨fun _ _ _ h h' => le_trans h' h⟩

/-- `rank: index + 1` assignment of `calculateAllSubsidies`. -/
def assignRanks : Int → List CalculationResult → List CalculationResult
  | _, [] => []
  | n, r :: rs => { r with rank := n } :: assignRanks (n + 1) rs

/-- `calculateAllSubsidies` (src/lib/calculator.ts): one result per known
prefecture, sorted by descending `totalAmount`, ranks `1..N`. -/
def calculateAllSubsidies (mc : List AgeMedicalCost)
    (catalog : Prefecture → List Subsidy) (input : CalculationInput) :
    Except String (List CalculationResult) :=
  match mapExcept (fun p => calculateSubsidies mc catalog p input) getAllPrefectures with
  | Except.error e => Except.error e
  | Except.ok results =>
      Except.ok (assignRanks 1 (List.insertionSort totalAmountGE results))

-- ==========================================
-- Derived definitions used by the verification
-- ==========================================

deriving instance DecidableEq for Except

-- The calculated amount carried into an `AppliedPolicy`, split out of
-- `calculateSubsidyAmount` for reasoning purposes.
def currentAmount (mc : List AgeMedicalCost) (s : Subsidy)
    (input : CalculationInput) : Int :=
  if isVariableAmountSubsidy s then
    if s.type = SubsidyType.childcare_allowance then
      calculateChildcareAllowance s input.children
    else
      calculateVariableAmount s input.children
  else
    match calculateFixedAmount mc s input with
    | Except.ok r => r.amount
    | Except.error _ => 0

-- Total companion of `calculateSubsidyAmount` (the engine provably never
-- reaches the throwing branch, so the fallback value below is dead).
def appliedPolicyOf (mc : List AgeMedicalCost) (s : Subsidy)
    (input : CalculationInput) : AppliedPolicy :=
  match calculateSubsidyAmount mc s input with
  | Except.ok ap => ap
  | Except.error _ => ⟨s, 0, 0, Option.none, 0, 0⟩

-- The policy list an `AppliedPolicy` is computed for, after both filter
-- stages of `calculateSubsidies`.
def applicablePolicies (policies : List Subsidy) (input : CalculationInput) :
    List Subsidy :=
  filterByChildConditions (filterByIncomeLimit policies input.householdIncome)
    input.children

-- The result `calculateSubsidies` produces for one jurisdiction.
def jurisdictionResult (mc : List AgeMedicalCost)
    (catalog : Prefecture → List Subsidy) (p : Prefecture)
    (input : CalculationInput) : CalculationResult :=
  { prefecture := p
    appliedPolicies :=
      (applicablePolicies (catalog p) input).map
        (fun s => appliedPolicyOf mc s input)
    totalAmount :=
      ((applicablePolicies (catalog p) input).map
        (fun s => (appliedPolicyOf mc s input).calculatedAmount)).sum
    totalMaxAmount :=
      ((applicablePolicies (catalog p) input).map
        (fun s => (appliedPolicyOf mc s input).maxAmount)).sum
    rank := 0 }

-- Rank assignment produces the arithmetic sequence n, n+1, ...
def rankSeq : Int → Nat → List Int
  | _, 0 => []
  | n, k + 1 => n :: rankSeq (n + 1) k

-- A trivial catalog used to instantiate witnesses.
def emptyCatalog : Prefecture → List Subsidy := fun _ => []

-- A tiered high-school-tuition policy (shape of the Saitama catalog entry
-- described by the spec), shared by several concrete instantiations.
def tieredHighSchoolPolicy : Subsidy :=
  { type := SubsidyType.high_school_tuition
    prefecture := Prefecture.saitama
    amount := Amount.fixed 118800
    frequency := Frequency.yearly
    incomeLimit :=
      { type := IncomeLimitType.tiered
        tiers := Option.some [⟨5000000, 200000⟩, ⟨5900000, 14000⟩] }
    childCondition :=
      { minAge := Option.some 15
        maxAge := Option.some 18
        birthOrder := Option.none } }

-- A fixed-amount policy type carrying the `'variable'` sentinel (the
-- catalog-authoring bug scenario of the spec's error-handling section).
def sentinelPolicy : Subsidy :=
  { type := SubsidyType.school_lunch
    prefecture := Prefecture.tokyo
    amount := Amount.variable
    frequency := Frequency.yearly
    incomeLimit := { type := IncomeLimitType.none }
    childCondition := {} }

-- Catalog well-formedness: age bands and conditions are sane intervals
-- inside childhood and all amounts are non-negative.  Every real catalog
-- entry described by the spec satisfies this.
def SubsidyWF (s : Subsidy) : Prop :=
  (∀ r ∈ s.ageBasedAmounts, 0 ≤ r.minAge ∧ r.minAge ≤ r.maxAge ∧ 0 ≤ r.amount) ∧
  0 ≤ s.amount.val ∧
  (∀ t ∈ s.incomeLimit.tiers.getD [], 0 ≤ t.amount) ∧
  (if s.type = SubsidyType.childcare_fee then
    0 ≤ s.childCondition.minAge.getD 0 ∧
      s.childCondition.minAge.getD 0 ≤ s.childCondition.maxAge.getD 5
   else if s.type = SubsidyType.high_school_tuition then
    0 ≤ s.childCondition.minAge.getD 15 ∧
      s.childCondition.minAge.getD 15 ≤ s.childCondition.maxAge.getD 18
   else
    0 ≤ s.childCondition.minAge.getD 0 ∧
      s.childCondition.minAge.getD 0 ≤ s.childCondition.maxAge.getD 18)

instance (s : Subsidy) : Decidable (SubsidyWF s) := by
  unfold SubsidyWF
  infer_instance

-- A plain continuous (monthly) flat-amount policy used for witnesses.
def monthlyLunchPolicy : Subsidy :=
  { type := SubsidyType.school_lunch
    prefecture := Prefecture.tokyo
    amount := Amount.fixed 5000
    frequency := Frequency.monthly
    incomeLimit := { type := IncomeLimitType.none }
    childCondition := {} }

-- Concrete engine output used by the C1 witness.
def lunchAppliedPolicy : AppliedPolicy :=
  { policy := monthlyLunchPolicy
    calculatedAmount := 540000
    yearsApplied := 9
    ageRange := Option.some ⟨10, 18, 9⟩
    maxAmount := 1140000
    receivedAmount := 600000 }

def lunchResult : CalculationResult :=
  { prefecture := Prefecture.tokyo
    appliedPolicies := [lunchAppliedPolicy]
    totalAmount := 540000
    totalMaxAmount := 1140000
    rank := 0 }

-- Concrete engine output used by the C5 witness.
def lunchAppliedPolicyAge0 : AppliedPolicy :=
  { policy := monthlyLunchPolicy
    calculatedAmount := 1140000
    yearsApplied := 19
    ageRange := Option.some ⟨0, 18, 19⟩
    maxAmount := 1140000
    receivedAmount := 0 }

def lunchResultAge0 : CalculationResult :=
  { prefecture := Prefecture.tokyo
    appliedPolicies := [lunchAppliedPolicyAge0]
    totalAmount := 1140000
    totalMaxAmount := 1140000
    rank := 0 }

-- ==========================================
-- Basic facts about the engine
-- ==========================================

-- `matchesChildCondition` never consults the child's current age.
theorem matchesChildCondition_age_irrel (a b : Int) (bo : BirthOrder)
    (cond : ChildCondition) :
    matchesChildCondition ⟨a, bo⟩ cond = matchesChildCondition ⟨b, bo⟩ cond := rfl

-- Characterisation of `matchesChildCondition`: birth-order match plus
-- overlap of the policy band (defaults 0/18) with the window [0, 18].
theorem matchesChildCondition_iff (child : ChildInfo) (cond : ChildCondition) :
    matchesChildCondition child cond = true ↔
      (birthOrderOk cond.birthOrder child.birthOrder = true ∧
        cond.minAge.getD 0 ≤ 18 ∧ 0 ≤ cond.maxAge.getD 18) := by
  unfold matchesChildCondition
  cases hbo : birthOrderOk cond.birthOrder child.birthOrder
  · simp [hbo]
  · by_cases h2 : (18:Int) < cond.minAge.getD 0 ∨ (0:Int) > cond.maxAge.getD 18
    · simp only [hbo, if_true, h2]
      constructor
      · intro hc; exact absurd hc (by simp)
      · intro hc; omega
    · simp only [hbo, if_true, h2, if_false]
      constructor
      · intro _; exact ⟨trivial, by omega, by omega⟩
      · intro _; trivial

-- `calculateFixedAmount` only ever throws on the `'variable'` sentinel.
theorem calculateFixedAmount_ok (mc : List AgeMedicalCost) (s : Subsidy)
    (input : CalculationInput) (hv : s.amount ≠ Amount.variable) :
    ∃ r, calculateFixedAmount mc s input = Except.ok r := by
  unfold calculateFixedAmount
  rw [if_neg hv]
  by_cases h1 : s.type = SubsidyType.medical_expense
  · rw [if_pos h1]; exact ⟨_, rfl⟩
  · rw [if_neg h1]
    by_cases h2 : s.type = SubsidyType.childcare_fee
    · rw [if_pos h2]
      cases hE : (input.children.filter fun child =>
          matchesChildCondition child s.childCondition).isEmpty <;>
        simp only [calculateChildcareFeeSubsidy, if_neg hv, hE, if_true,
          if_false, Bool.false_eq_true] <;> exact ⟨_, rfl⟩
    · rw [if_neg h2]
      by_cases h3 : s.type = SubsidyType.high_school_tuition
      · rw [if_pos h3]
        cases hE : (input.children.filter fun child =>
            matchesChildCondition child s.childCondition).isEmpty <;>
          simp only [calculateHighSchoolTuition, if_neg hv, hE, if_true,
            if_false, Bool.false_eq_true] <;> exact ⟨_, rfl⟩
      · rw [if_neg h3]
        cases hE : (input.children.filter fun child =>
            matchesChildCondition child s.childCondition).isEmpty <;>
          simp only [hE, if_true, if_false, Bool.false_eq_true] <;> exact ⟨_, rfl⟩

-- The engine never actually throws: every `calculateSubsidyAmount` call
-- succeeds, and its fields are the three independently computed amounts.
theorem calculateSubsidyAmount_fields (mc : List AgeMedicalCost) (s : Subsidy)
    (input : CalculationInput) (ap : AppliedPolicy)
    (h : calculateSubsidyAmount mc s input = Except.ok ap) :
    ap.policy = s ∧
    ap.calculatedAmount = currentAmount mc s input ∧
    ap.maxAmount = calculateMaxAmount mc s input.children ∧
    ap.receivedAmount = calculateReceivedAmount mc s input.children := by
  unfold calculateSubsidyAmount at h
  by_cases hv : isVariableAmountSubsidy s
  · simp only [hv, if_true] at h
    unfold currentAmount
    simp only [hv, if_true]
    rcases input with ⟨inc, children⟩
    rcases children with _ | ⟨c, cs⟩ <;> rcases hb : s.ageBasedAmounts with _ | ⟨r, rs⟩ <;>
      simp [hb] at h <;> by_cases hca : s.type = SubsidyType.childcare_allowance <;>
      simp [hca] at h ⊢ <;> simp [← h]
  · simp only [hv, if_false, Bool.false_eq_true] at h
    have hvv : s.amount ≠ Amount.variable := by
      intro hc; exact hv (by simp [isVariableAmountSubsidy, hc])
    obtain ⟨r, hr⟩ := calculateFixedAmount_ok mc s input hvv
    rw [hr] at h
    unfold currentAmount
    simp only [hv, if_false, Bool.false_eq_true]
    rw [hr]
    cases h
    simp

theorem calculateSubsidyAmount_ok (mc : List AgeMedicalCost) (s : Subsidy)
    (input : CalculationInput) :
    ∃ ap, calculateSubsidyAmount mc s input = Except.ok ap := by
  unfold calculateSubsidyAmount
  by_cases hv : isVariableAmountSubsidy s
  · simp only [hv, if_true]
    split <;> exact ⟨_, rfl⟩
  · simp only [hv, if_false, Bool.false_eq_true]
    have hvv : s.amount ≠ Amount.variable := by
      intro hc; exact hv (by simp [isVariableAmountSubsidy, hc])
    obtain ⟨r, hr⟩ := calculateFixedAmount_ok mc s input hvv
    rw [hr]
    exact ⟨_, rfl⟩

-- `mapExcept` succeeds when every element succeeds, with the evident value.
theorem mapExcept_eq_map {α β ε : Type _} {f : α → Except ε β} {g : α → β}
    {l : List α} (h : ∀ a ∈ l, f a = Except.ok (g a)) :
    mapExcept f l = Except.ok (l.map g) := by
  induction l with
  | nil => rfl
  | cons a as ih =>
      unfold mapExcept
      rw [h a (by simp), ih (fun x hx => h x (by simp [hx]))]
      simp

theorem appliedPolicyOf_spec (mc : List AgeMedicalCost) (s : Subsidy)
    (input : CalculationInput) :
    calculateSubsidyAmount mc s input = Except.ok (appliedPolicyOf mc s input) := by
  obtain ⟨ap, hap⟩ := calculateSubsidyAmount_ok mc s input
  unfold appliedPolicyOf
  rw [hap]

-- Explicit success form of `calculateSubsidiesCore`.
theorem calculateSubsidiesCore_eq (mc : List AgeMedicalCost)
    (policies : List Subsidy) (prefecture : Prefecture)
    (input : CalculationInput) :
    calculateSubsidiesCore mc policies prefecture input =
      Except.ok
        { prefecture := prefecture
          appliedPolicies :=
            (applicablePolicies policies input).map
              (fun s => appliedPolicyOf mc s input)
          totalAmount :=
            ((applicablePolicies policies input).map
              (fun s => (appliedPolicyOf mc s input).calculatedAmount)).sum
          totalMaxAmount :=
            ((applicablePolicies policies input).map
              (fun s => (appliedPolicyOf mc s input).maxAmount)).sum
          rank := 0 } := by
  simp only [calculateSubsidiesCore]
  rw [mapExcept_eq_map (g := fun s => appliedPolicyOf mc s input)
    (fun s _ => appliedPolicyOf_spec mc s input)]
  simp only [applicablePolicies, List.map_map]
  rfl

theorem calculateSubsidies_eq (mc : List AgeMedicalCost)
    (catalog : Prefecture → List Subsidy) (p : Prefecture)
    (input : CalculationInput) :
    calculateSubsidies mc catalog p input =
      Except.ok (jurisdictionResult mc catalog p input) :=
  calculateSubsidiesCore_eq mc (catalog p) p input

theorem calculateAllSubsidies_eq (mc : List AgeMedicalCost)
    (catalog : Prefecture → List Subsidy) (input : CalculationInput) :
    calculateAllSubsidies mc catalog input =
      Except.ok (assignRanks 1 (List.insertionSort totalAmountGE
        (getAllPrefectures.map
          (fun p => jurisdictionResult mc catalog p input)))) := by
  unfold calculateAllSubsidies
  rw [mapExcept_eq_map (g := fun p => jurisdictionResult mc catalog p input)
    (fun p _ => calculateSubsidies_eq mc catalog p input)]

theorem assignRanks_map_rank : ∀ (n : Int) (l : List CalculationResult),
    (assignRanks n l).map CalculationResult.rank = rankSeq n l.length := by
  intro n l
  induction l generalizing n with
  | nil => rfl
  | cons r rs ih => simp [assignRanks, rankSeq, ih]

theorem assignRanks_map_prefecture : ∀ (n : Int) (l : List CalculationResult),
    (assignRanks n l).map CalculationResult.prefecture =
      l.map CalculationResult.prefecture := by
  intro n l
  induction l generalizing n with
  | nil => rfl
  | cons r rs ih => simp [assignRanks, ih]

theorem assignRanks_map_totalAmount : ∀ (n : Int) (l : List CalculationResult),
    (assignRanks n l).map CalculationResult.totalAmount =
      l.map CalculationResult.totalAmount := by
  intro n l
  induction l generalizing n with
  | nil => rfl
  | cons r rs ih => simp [assignRanks, ih]

-- `totalAmountGE`-pairwiseness only depends on the totals.
theorem pairwise_totalAmountGE_iff (l : List CalculationResult) :
    l.Pairwise totalAmountGE ↔
      (l.map CalculationResult.totalAmount).Pairwise (fun x y => y ≤ x) := by
  rw [List.pairwise_map]
  rfl

theorem assignRanks_pairwise (n : Int) (l : List CalculationResult)
    (h : l.Pairwise totalAmountGE) :
    (assignRanks n l).Pairwise totalAmountGE := by
  rw [pairwise_totalAmountGE_iff, assignRanks_map_totalAmount]
  rw [pairwise_totalAmountGE_iff] at h
  exact h

-- ==========================================
-- Claim theorems
-- ==========================================

/-- C2: for all integers with `minAge ≤ maxAge`, `calculateYearsFromCurrentAge`
returns 0 once the current age exceeds `maxAge`, the full inclusive span
`maxAge - minAge + 1` when the current age is at most `minAge`, and
`maxAge - currentAge + 1` when the current age lies strictly between. -/
theorem claim_C2_yearsRemaining (currentAge minAge maxAge : Int)
    (h : minAge ≤ maxAge) :
    (currentAge > maxAge →
      calculateYearsFromCurrentAge currentAge minAge maxAge = 0) ∧
    (currentAge ≤ minAge →
      calculateYearsFromCurrentAge currentAge minAge maxAge =
        maxAge - minAge + 1) ∧
    (minAge < currentAge → currentAge ≤ maxAge →
      calculateYearsFromCurrentAge currentAge minAge maxAge =
        maxAge - currentAge + 1) := by
  unfold calculateYearsFromCurrentAge
  refine ⟨fun hc => ?_, fun hc => ?_, fun h1 h2 => ?_⟩ <;> split_ifs <;> omega

theorem claim_C2_yearsRemaining_witness :
    calculateYearsFromCurrentAge 5 6 14 = 14 - 6 + 1 ∧
    calculateYearsFromCurrentAge 15 6 14 = 0 ∧
    calculateYearsFromCurrentAge 14 6 14 = 14 - 14 + 1 :=
  ⟨(claim_C2_yearsRemaining 5 6 14 (by decide)).2.1 (by decide),
   (claim_C2_yearsRemaining 15 6 14 (by decide)).1 (by decide),
   (claim_C2_yearsRemaining 14 6 14 (by decide)).2.2 (by decide) (by decide)⟩

/-- C6: a policy whose income limit is tagged `tiered` survives the income
filter iff some listed tier's threshold strictly exceeds the household
income; an absent or empty tier list means the policy is silently dropped
(the filter is total — no error is signalled). -/
theorem claim_C6_tiered_income_filter (householdIncome : Int)
    (policies : List Subsidy) (s : Subsidy)
    (htype : s.incomeLimit.type = IncomeLimitType.tiered) :
    (s ∈ filterByIncomeLimit policies householdIncome ↔
      s ∈ policies ∧ ∃ ts, s.incomeLimit.tiers = Option.some ts ∧
        ∃ t ∈ ts, householdIncome < t.threshold) ∧
    ((s.incomeLimit.tiers = Option.none ∨ s.incomeLimit.tiers = Option.some []) →
      s ∉ filterByIncomeLimit policies householdIncome) := by
  have hpass : incomeLimitPasses householdIncome s =
      checkTieredIncomeLimit householdIncome s.incomeLimit.tiers := by
    unfold incomeLimitPasses
    rw [htype]
  constructor
  · rw [filterByIncomeLimit, List.mem_filter, hpass]
    unfold checkTieredIncomeLimit
    rcases hts : s.incomeLimit.tiers with _ | ts
    · simp
    · rcases ts with _ | ⟨t, ts'⟩
      · simp
      · simp [List.any_eq_true]
  · rintro (hna | hemp) hmem
    · rw [filterByIncomeLimit, List.mem_filter, hpass] at hmem
      rw [hna] at hmem
      simp [checkTieredIncomeLimit] at hmem
    · rw [filterByIncomeLimit, List.mem_filter, hpass] at hmem
      rw [hemp] at hmem
      simp [checkTieredIncomeLimit] at hmem

theorem claim_C6_tiered_income_filter_witness :
    let s : Subsidy :=
      { type := SubsidyType.school_lunch
        prefecture := Prefecture.tokyo
        amount := Amount.fixed 50000
        frequency := Frequency.yearly
        incomeLimit :=
          { type := IncomeLimitType.tiered
            tiers := Option.some [⟨9000000, 50000⟩] }
        childCondition := {} }
    s ∈ filterByIncomeLimit [s] 6000000 ↔
      s ∈ [s] ∧ ∃ ts, s.incomeLimit.tiers = Option.some ts ∧
        ∃ t ∈ ts, (6000000:Int) < t.threshold :=
  (claim_C6_tiered_income_filter 6000000 _ _ rfl).1

/-- C3: for every medical-cost table, catalog and input, `calculateAllSubsidies`
succeeds with one result per known jurisdiction (the prefectures of the
results are a permutation of the four known ones), ranks forming the
contiguous sequence 1..4, and non-increasing `totalAmount` along the
list (i.e. as the rank increases). -/
theorem claim_C3_ranking (mc : List AgeMedicalCost)
    (catalog : Prefecture → List Subsidy) (input : CalculationInput) :
    ∃ results, calculateAllSubsidies mc catalog input = Except.ok results ∧
      List.Perm (results.map CalculationResult.prefecture) getAllPrefectures ∧
      results.map CalculationResult.rank = [1, 2, 3, 4] ∧
      results.Pairwise (fun a b => b.totalAmount ≤ a.totalAmount) := by
  refine ⟨_, calculateAllSubsidies_eq mc catalog input, ?_, ?_, ?_⟩
  · rw [assignRanks_map_prefecture]
    have hperm := (List.perm_insertionSort totalAmountGE
      (getAllPrefectures.map
        (fun p => jurisdictionResult mc catalog p input))).map
      CalculationResult.prefecture
    refine hperm.trans ?_
    rw [List.map_map]
    have hid : (CalculationResult.prefecture ∘
        fun p => jurisdictionResult mc catalog p input) = id := rfl
    rw [hid, List.map_id]
  · rw [assignRanks_map_rank, List.length_insertionSort, List.length_map]
    rfl
  · exact assignRanks_pairwise _ _
      (List.sorted_insertionSort totalAmountGE _)

/-- C10: the single-jurisdiction entry point always returns `rank = 0`;
ranks 1..N appear only in the output of `calculateAllSubsidies`, assigned
as index+1 after sorting. -/
theorem claim_C10_rank_only_in_ranking (mc : List AgeMedicalCost)
    (catalog : Prefecture → List Subsidy) (p : Prefecture)
    (input : CalculationInput) :
    (∀ r, calculateSubsidies mc catalog p input = Except.ok r → r.rank = 0) ∧
    (∀ results, calculateAllSubsidies mc catalog input = Except.ok results →
      results.map CalculationResult.rank = [1, 2, 3, 4]) := by
  constructor
  · intro r h
    rw [calculateSubsidies_eq] at h
    cases h
    rfl
  · intro results h
    rw [calculateAllSubsidies_eq] at h
    cases h
    rw [assignRanks_map_rank, List.length_insertionSort, List.length_map]
    rfl

theorem claim_C10_rank_only_in_ranking_witness :
    ({ prefecture := Prefecture.tokyo, appliedPolicies := [], totalAmount := 0,
       totalMaxAmount := 0, rank := 0 } : CalculationResult).rank = 0 ∧
    ([{ prefecture := Prefecture.tokyo, appliedPolicies := [], totalAmount := 0,
        totalMaxAmount := 0, rank := 1 },
      { prefecture := Prefecture.saitama, appliedPolicies := [], totalAmount := 0,
        totalMaxAmount := 0, rank := 2 },
      { prefecture := Prefecture.chiba, appliedPolicies := [], totalAmount := 0,
        totalMaxAmount := 0, rank := 3 },
      { prefecture := Prefecture.kanagawa, appliedPolicies := [], totalAmount := 0,
        totalMaxAmount := 0, rank := 4 }] :
      List CalculationResult).map CalculationResult.rank = [1, 2, 3, 4] :=
  ⟨(claim_C10_rank_only_in_ranking [] emptyCatalog Prefecture.tokyo ⟨0, []⟩).1 _
      (by decide),
   (claim_C10_rank_only_in_ranking [] emptyCatalog Prefecture.tokyo ⟨0, []⟩).2 _
      (by decide)⟩

-- Resolution lemmas for the two amount-per-year rules of the high-school
-- calculators.
theorem highSchoolAmountPerYear_nontiered (s : Subsidy) (income : Int)
    (h : s.incomeLimit.type ≠ IncomeLimitType.tiered) :
    highSchoolAmountPerYear s income =
      calculateAmountByFrequency s.amount.val s.frequency := by
  unfold highSchoolAmountPerYear
  rcases hil : s.incomeLimit.type with _ | _ | _
  · rcases s.incomeLimit.tiers with _ | (_ | ⟨t, ts⟩) <;> rfl
  · rcases s.incomeLimit.tiers with _ | (_ | ⟨t, ts⟩) <;> rfl
  · exact absurd hil h

theorem highSchoolAmountPerYear_first_tier (s : Subsidy) (income : Int)
    (t0 : IncomeTier) (rest : List IncomeTier)
    (hil : s.incomeLimit.type = IncomeLimitType.tiered)
    (hts : s.incomeLimit.tiers = Option.some (t0 :: rest))
    (hlt : income < t0.threshold) :
    highSchoolAmountPerYear s income = t0.amount := by
  unfold highSchoolAmountPerYear
  rw [hil, hts]
  have hfind : List.find? (fun t => decide (income < t.threshold))
      (t0 :: rest) = Option.some t0 :=
    List.find?_cons_of_pos _ (by simp [hlt])
  simp only [hfind]

theorem highSchoolMaxAmountPerYear_nontiered (s : Subsidy)
    (h : s.incomeLimit.type ≠ IncomeLimitType.tiered) :
    highSchoolMaxAmountPerYear s =
      calculateAmountByFrequency s.amount.val s.frequency := by
  unfold highSchoolMaxAmountPerYear
  rcases hil : s.incomeLimit.type with _ | _ | _
  · rcases s.incomeLimit.tiers with _ | (_ | ⟨t, ts⟩) <;> rfl
  · rcases s.incomeLimit.tiers with _ | (_ | ⟨t, ts⟩) <;> rfl
  · exact absurd hil h

theorem highSchoolMaxAmountPerYear_tiered (s : Subsidy)
    (t0 : IncomeTier) (rest : List IncomeTier)
    (hil : s.incomeLimit.type = IncomeLimitType.tiered)
    (hts : s.incomeLimit.tiers = Option.some (t0 :: rest)) :
    highSchoolMaxAmountPerYear s = t0.amount := by
  unfold highSchoolMaxAmountPerYear
  rw [hil, hts]

/-- C7: for a high-school-tuition policy with a present tiered income
limit, the current-entitlement calculator prices each remaining year at
the amount of the first listed tier whose threshold strictly exceeds the
household income (0 when no tier matches), while the maximum-entitlement
calculator always prices years at the first listed tier's amount, with no
dependence on the household income. -/
theorem claim_C7_high_school_tier_selection (s : Subsidy) (income : Int)
    (child : ChildInfo) (ts : List IncomeTier)
    (hv : s.amount ≠ Amount.variable)
    (htiered : s.incomeLimit.type = IncomeLimitType.tiered)
    (hts : s.incomeLimit.tiers = Option.some ts)
    (hmatch : matchesChildCondition child s.childCondition = true) :
    (∀ r, calculateHighSchoolTuition s ⟨income, [child]⟩ = Except.ok r →
      r.amount =
        (((ts.find? (fun t => income < t.threshold)).map IncomeTier.amount).getD 0) *
          max (calculateYearsFromCurrentAge child.age
            (s.childCondition.minAge.getD 15) (s.childCondition.maxAge.getD 18)) 0) ∧
    (∀ t0 rest, ts = t0 :: rest →
      calculateMaxHighSchoolTuition s [child] =
        t0.amount *
          ((s.childCondition.maxAge.getD 18) - (s.childCondition.minAge.getD 15) + 1)) := by
  have hapy : highSchoolAmountPerYear s income =
      ((ts.find? (fun t => income < t.threshold)).map IncomeTier.amount).getD 0 := by
    unfold highSchoolAmountPerYear
    rw [htiered, hts]
    rcases hfind : ts.find? (fun t => income < t.threshold) with _ | t <;>
      simp [hfind]
  have hbo : birthOrderOk s.childCondition.birthOrder child.birthOrder = true :=
    ((matchesChildCondition_iff child s.childCondition).1 hmatch).1
  constructor
  · intro r hr
    unfold calculateHighSchoolTuition at hr
    rw [if_neg hv] at hr
    simp only [List.filter, hmatch, List.isEmpty_cons, if_false,
      Bool.false_eq_true] at hr
    cases hr
    simp only [List.map, List.sum_cons, List.sum_nil, add_zero, hapy]
    rcases lt_or_le 0 (calculateYearsFromCurrentAge child.age
      (s.childCondition.minAge.getD 15) (s.childCondition.maxAge.getD 18)) with hy | hy
    · rw [if_pos hy, max_eq_left (le_of_lt hy)]
    · rw [if_neg (by omega), max_eq_right hy, mul_zero]
  · intro t0 rest hcons
    unfold calculateMaxHighSchoolTuition
    rw [if_neg hv]
    simp only [List.filter, hbo, List.isEmpty_cons, if_false, Bool.false_eq_true]
    rw [highSchoolMaxAmountPerYear_tiered s t0 rest htiered
      (hts.trans (by rw [hcons]))]
    simp [mul_assoc]

theorem claim_C7_high_school_tier_selection_witness :
    (∀ r, calculateHighSchoolTuition tieredHighSchoolPolicy
        ⟨5500000, [⟨16, BirthOrder.first⟩]⟩ = Except.ok r →
      r.amount =
        ((([⟨5000000, 200000⟩, ⟨5900000, 14000⟩] : List IncomeTier).find?
            (fun t => (5500000:Int) < t.threshold)).map IncomeTier.amount).getD 0 *
          max (calculateYearsFromCurrentAge 16 15 18) 0) ∧
    calculateMaxHighSchoolTuition tieredHighSchoolPolicy [⟨16, BirthOrder.first⟩] =
      (200000 : Int) * (18 - 15 + 1) := by
  have h := claim_C7_high_school_tier_selection tieredHighSchoolPolicy 5500000
    ⟨16, BirthOrder.first⟩ [⟨5000000, 200000⟩, ⟨5900000, 14000⟩]
    (by decide) rfl rfl (by decide)
  exact ⟨h.1, h.2 ⟨5000000, 200000⟩ [⟨5900000, 14000⟩] rfl⟩

/-- C9 counterexample: for a fixed-amount policy type whose amount is the
`'variable'` sentinel, the maximum- and received-entitlement computations
do not signal any error — they silently compute 0 (their result type has
no error channel at all), contradicting the claim that all three
computations fail loudly. -/
theorem claim_C9_counterexample :
    calculateMaxAmount [] sentinelPolicy [⟨10, BirthOrder.first⟩] = 0 ∧
    calculateReceivedAmount [] sentinelPolicy [⟨10, BirthOrder.first⟩] = 0 := by
  decide

/-- C9 (amended): only the current-entitlement fixed-amount calculator
fails loudly on the `'variable'` sentinel; the maximum- and
received-entitlement computations return 0 silently (here stated for
sentinel policies without age bands outside the child-allowance special
case, where the band total they fall back to is empty). -/
theorem claim_C9_variable_sentinel (mc : List AgeMedicalCost) (s : Subsidy)
    (input : CalculationInput) (hv : s.amount = Amount.variable) :
    (∃ msg, calculateFixedAmount mc s input = Except.error msg) ∧
    (s.ageBasedAmounts = [] → s.type ≠ SubsidyType.childcare_allowance →
      calculateMaxAmount mc s input.children = 0 ∧
      calculateReceivedAmount mc s input.children = 0) := by
  constructor
  · unfold calculateFixedAmount
    rw [if_pos hv]
    exact ⟨_, rfl⟩
  · intro hb hty
    have hvar : isVariableAmountSubsidy s = true := by
      simp [isVariableAmountSubsidy, hv]
    constructor
    · unfold calculateMaxAmount
      rw [if_pos hvar]
      simp [hb, hty]
    · unfold calculateReceivedAmount
      rw [if_pos hvar]
      simp [hb, hty]

theorem claim_C9_variable_sentinel_witness :
    (∃ msg, calculateFixedAmount [] sentinelPolicy ⟨0, [⟨10, BirthOrder.first⟩]⟩ =
      Except.error msg) ∧
    (calculateMaxAmount [] sentinelPolicy [⟨10, BirthOrder.first⟩] = 0 ∧
      calculateReceivedAmount [] sentinelPolicy [⟨10, BirthOrder.first⟩] = 0) :=
  ⟨(claim_C9_variable_sentinel [] sentinelPolicy ⟨0, [⟨10, BirthOrder.first⟩]⟩ rfl).1,
   (claim_C9_variable_sentinel [] sentinelPolicy ⟨0, [⟨10, BirthOrder.first⟩]⟩ rfl).2
      rfl (by decide)⟩

-- ==========================================
-- Conservation infrastructure (claims C1, C5)
-- ==========================================

-- Arithmetic core of the conservation invariant on one inclusive age
-- interval [minA, maxA] priced at `c` per year: the full span splits into
-- the remaining span and the already-consumed span.
theorem interval_conservation (c minA maxA a : Int) (h1 : minA ≤ maxA) :
    c * (maxA - minA + 1) =
      (if calculateYearsFromCurrentAge a minA maxA > 0 then
        c * calculateYearsFromCurrentAge a minA maxA else 0) +
      (if a > maxA then c * (maxA - minA + 1)
       else if a > minA then c * (a - minA) else 0) := by
  unfold calculateYearsFromCurrentAge
  rcases lt_or_le maxA a with hgt | hle
  · have hinner : (if a > maxA then (0:Int) else maxA - max a minA + 1) = 0 :=
      if_pos hgt
    rw [hinner, if_neg (by omega), if_pos hgt, zero_add]
  · have hinner : (if a > maxA then (0:Int) else maxA - max a minA + 1) =
        maxA - max a minA + 1 := if_neg (by omega)
    rw [hinner]
    rcases lt_or_le minA a with hmin | hmin
    · rw [max_eq_left (le_of_lt hmin), if_pos (by omega), if_neg (by omega),
        if_pos hmin, ← mul_add]
      congr 1
      omega
    · rw [max_eq_right hmin, if_pos (by omega), if_neg (by omega),
        if_neg (by omega), add_zero]

-- The band-received expression in the interval-conservation shape.
theorem bandReceivedAmount_eq (a : Int) (r : AgeBasedAmount)
    (h1 : r.minAge ≤ r.maxAge) :
    bandReceivedAmount a r =
      (if a > r.maxAge then
        calculateAmountByFrequency r.amount r.frequency * (r.maxAge - r.minAge + 1)
       else if a > r.minAge then
        calculateAmountByFrequency r.amount r.frequency * (a - r.minAge)
       else 0) := by
  unfold bandReceivedAmount
  rcases le_or_lt a r.minAge with hle | hgt
  · rw [if_pos hle, if_neg (by omega), if_neg (by omega)]
  · rw [if_neg (by omega)]
    rcases lt_or_le r.maxAge a with hm | hm
    · rw [min_eq_right (by omega : r.maxAge ≤ a - 1), if_pos (by omega),
        if_pos hm]
    · rw [min_eq_left (by omega : a - 1 ≤ r.maxAge), if_pos (by omega),
        if_neg (by omega), if_pos hgt]
      congr 1
      omega

theorem band_conservation (a : Int) (r : AgeBasedAmount)
    (h1 : r.minAge ≤ r.maxAge) :
    bandFullAmount r = bandRemainingAmount a r + bandReceivedAmount a r := by
  rw [bandReceivedAmount_eq a r h1]
  simp only [bandFullAmount, bandRemainingAmount]
  exact interval_conservation _ _ _ _ h1

theorem sum_bands_conservation (bands : List AgeBasedAmount) (a : Int)
    (hwf : ∀ r ∈ bands, r.minAge ≤ r.maxAge) :
    (bands.map bandFullAmount).sum =
      (bands.map (bandRemainingAmount a)).sum +
        (bands.map (bandReceivedAmount a)).sum := by
  induction bands with
  | nil => simp
  | cons r rs ih =>
      simp only [List.map_cons, List.sum_cons]
      rw [band_conservation a r (hwf r (by simp)),
        ih (fun x hx => hwf x (by simp [hx]))]
      ring

-- Conservation for variable-amount (age-banded) policies.
theorem conservation_variable (mc : List AgeMedicalCost) (s : Subsidy)
    (income : Int) (child : ChildInfo)
    (hv : s.amount = Amount.variable)
    (hbands : ∀ r ∈ s.ageBasedAmounts, r.minAge ≤ r.maxAge)
    (hage : 1 ≤ child.age) (hage2 : child.age ≤ 18) :
    calculateMaxAmount mc s [child] =
      currentAmount mc s ⟨income, [child]⟩ +
        calculateReceivedAmount mc s [child] := by
  have hvar : isVariableAmountSubsidy s = true := by
    simp [isVariableAmountSubsidy, hv]
  unfold calculateMaxAmount currentAmount calculateReceivedAmount
  rw [if_pos hvar, if_pos hvar, if_pos hvar]
  simp only [List.map_cons, List.map_nil, List.sum_cons, List.sum_nil, add_zero]
  by_cases hca : s.type = SubsidyType.childcare_allowance
  · by_cases hbo3 : child.birthOrder = BirthOrder.third_or_more
    · rw [if_pos ⟨hca, hbo3⟩, if_pos hca, if_neg (by omega), if_pos ⟨hca, hbo3⟩]
      unfold calculateChildcareAllowance
      simp only [List.map_cons, List.map_nil, List.sum_cons, List.sum_nil,
        add_zero, hbo3, if_pos]
      unfold calculateYearsFromCurrentAge CHILDCARE_ALLOWANCE_THIRD_CHILD_MONTHLY
      rw [if_neg (by omega), max_eq_left (by omega)]
      omega
    · rw [if_neg (by simp [hbo3]), if_pos hca, if_neg (by omega),
        if_neg (by simp [hbo3])]
      unfold calculateChildcareAllowance
      simp only [List.map_cons, List.map_nil, List.sum_cons, List.sum_nil,
        add_zero, hbo3, if_neg, Bool.false_eq_true]
      exact sum_bands_conservation s.ageBasedAmounts child.age hbands
  · rw [if_neg (by simp [hca]), if_neg hca, if_neg (by omega),
      if_neg (by simp [hca])]
    unfold calculateVariableAmount
    simp only [List.map_cons, List.map_nil, List.sum_cons, List.sum_nil, add_zero]
    exact sum_bands_conservation s.ageBasedAmounts child.age hbands

-- Conservation for the medical-expense special calculator.
theorem conservation_medical (mc : List AgeMedicalCost) (s : Subsidy)
    (income : Int) (child : ChildInfo)
    (hv : s.amount ≠ Amount.variable)
    (hty : s.type = SubsidyType.medical_expense)
    (hmatch : matchesChildCondition child s.childCondition = true)
    (hage : 1 ≤ child.age) :
    calculateMaxAmount mc s [child] =
      currentAmount mc s ⟨income, [child]⟩ +
        calculateReceivedAmount mc s [child] := by
  have hvar : ¬ isVariableAmountSubsidy s = true := by
    simp [isVariableAmountSubsidy, hv]
  have hbo := ((matchesChildCondition_iff child s.childCondition).1 hmatch).1
  have hflt : List.filter
      (fun c => matchesChildCondition c s.childCondition) [child] = [child] := by
    simp [hmatch]
  have hfltbo : List.filter
      (fun c => birthOrderOk s.childCondition.birthOrder c.birthOrder) [child] =
        [child] := by
    simp [hbo]
  have hfix : calculateFixedAmount mc s ⟨income, [child]⟩ =
      Except.ok (calculateMedicalExpenseSubsidy mc s ⟨income, [child]⟩) := by
    unfold calculateFixedAmount
    rw [if_neg hv, if_pos hty]
  unfold currentAmount
  rw [if_neg hvar, hfix]
  unfold calculateMaxAmount calculateReceivedAmount
  rw [if_neg hvar, if_neg hvar, if_neg hv, if_neg hv, if_pos hty, if_pos hty]
  unfold calculateMaxMedicalExpenseSubsidy calculateReceivedMedicalExpenseSubsidy
    calculateMedicalExpenseSubsidy
  simp only [hflt, hfltbo]
  simp only [List.isEmpty_cons, if_false, Bool.false_eq_true, List.map_cons,
    List.map_nil, List.sum_cons, List.sum_nil, add_zero, if_neg (by omega : ¬ child.age = 0)]
  omega

-- Conservation for the childcare-fee special calculator.
theorem conservation_childcare_fee (mc : List AgeMedicalCost) (s : Subsidy)
    (income : Int) (child : ChildInfo)
    (hv : s.amount ≠ Amount.variable)
    (hty : s.type = SubsidyType.childcare_fee)
    (hcond : s.childCondition.minAge.getD 0 ≤ s.childCondition.maxAge.getD 5)
    (hmatch : matchesChildCondition child s.childCondition = true)
    (hage : 1 ≤ child.age) :
    calculateMaxAmount mc s [child] =
      currentAmount mc s ⟨income, [child]⟩ +
        calculateReceivedAmount mc s [child] := by
  have hvar : ¬ isVariableAmountSubsidy s = true := by
    simp [isVariableAmountSubsidy, hv]
  have hmed : ¬ s.type = SubsidyType.medical_expense := by simp [hty]
  have hbo := ((matchesChildCondition_iff child s.childCondition).1 hmatch).1
  have hflt : List.filter
      (fun c => matchesChildCondition c s.childCondition) [child] = [child] := by
    simp [hmatch]
  have hfltbo : List.filter
      (fun c => birthOrderOk s.childCondition.birthOrder c.birthOrder) [child] =
        [child] := by
    simp [hbo]
  have hfix : calculateFixedAmount mc s ⟨income, [child]⟩ =
      calculateChildcareFeeSubsidy s ⟨income, [child]⟩ := by
    unfold calculateFixedAmount
    rw [if_neg hv, if_neg hmed, if_pos hty]
  unfold currentAmount
  rw [if_neg hvar, hfix]
  unfold calculateChildcareFeeSubsidy
  rw [if_neg hv]
  simp only [hflt]
  unfold calculateMaxAmount calculateReceivedAmount
  rw [if_neg hvar, if_neg hvar, if_neg hv, if_neg hv, if_pos hty, if_pos hty,
    if_neg hmed, if_neg hmed]
  unfold calculateMaxChildcareFeeSubsidy calculateReceivedChildcareFeeSubsidy
  rw [if_neg hv, if_neg hv]
  simp only [hfltbo]
  simp only [List.isEmpty_cons, if_false, Bool.false_eq_true, List.map_cons,
    List.map_nil, List.sum_cons, List.sum_nil, add_zero, List.length_cons,
    List.length_nil, zero_add, Nat.cast_one, mul_one,
    if_neg (by omega : ¬ child.age = 0)]
  exact interval_conservation _ _ _ _ hcond

-- The received-amount piecewise shape used by the high-school calculator,
-- rewritten into the interval-conservation shape (ages ≥ 1).
theorem hsReceived_eq (c minA maxA a : Int) (h1 : minA ≤ maxA) (h2 : 1 ≤ a) :
    (if a = 0 ∨ a ≤ minA then 0
     else if a > maxA then c * (maxA - minA + 1) else c * (a - minA)) =
    (if a > maxA then c * (maxA - minA + 1)
     else if a > minA then c * (a - minA) else 0) := by
  rcases le_or_lt a minA with hle | hgt
  · rw [if_pos (Or.inr hle), if_neg (by omega), if_neg (by omega)]
  · rw [if_neg (by omega)]
    rcases lt_or_le maxA a with hm | hm
    · rw [if_pos hm, if_pos hm]
    · rw [if_neg (by omega), if_neg (by omega), if_pos hgt]

-- Conservation for the high-school-tuition special calculator, under the
-- proviso that a tiered income limit resolves to its first listed tier for
-- this household (when the matching tier is not the first one the
-- invariant genuinely fails, see the C1/C5 counterexamples).
theorem conservation_high_school (mc : List AgeMedicalCost) (s : Subsidy)
    (income : Int) (child : ChildInfo)
    (hv : s.amount ≠ Amount.variable)
    (hty : s.type = SubsidyType.high_school_tuition)
    (hcond : s.childCondition.minAge.getD 15 ≤ s.childCondition.maxAge.getD 18)
    (hmatch : matchesChildCondition child s.childCondition = true)
    (hage : 1 ≤ child.age)
    (htier : s.incomeLimit.type = IncomeLimitType.tiered →
      ∃ t0 rest, s.incomeLimit.tiers = Option.some (t0 :: rest) ∧
        income < t0.threshold) :
    calculateMaxAmount mc s [child] =
      currentAmount mc s ⟨income, [child]⟩ +
        calculateReceivedAmount mc s [child] := by
  have hvar : ¬ isVariableAmountSubsidy s = true := by
    simp [isVariableAmountSubsidy, hv]
  have hmed : ¬ s.type = SubsidyType.medical_expense := by simp [hty]
  have hccf : ¬ s.type = SubsidyType.childcare_fee := by simp [hty]
  have hbo := ((matchesChildCondition_iff child s.childCondition).1 hmatch).1
  have hflt : List.filter
      (fun c => matchesChildCondition c s.childCondition) [child] = [child] := by
    simp [hmatch]
  have hfltbo : List.filter
      (fun c => birthOrderOk s.childCondition.birthOrder c.birthOrder) [child] =
        [child] := by
    simp [hbo]
  have hfix : calculateFixedAmount mc s ⟨income, [child]⟩ =
      calculateHighSchoolTuition s ⟨income, [child]⟩ := by
    unfold calculateFixedAmount
    rw [if_neg hv, if_neg hmed, if_neg hccf, if_pos hty]
  unfold currentAmount
  rw [if_neg hvar, hfix]
  unfold calculateHighSchoolTuition
  rw [if_neg hv]
  simp only [hflt]
  unfold calculateMaxAmount calculateReceivedAmount
  rw [if_neg hvar, if_neg hvar, if_neg hv, if_neg hv, if_pos hty, if_pos hty,
    if_neg hmed, if_neg hmed, if_neg hccf, if_neg hccf]
  unfold calculateMaxHighSchoolTuition calculateReceivedHighSchoolTuition
  rw [if_neg hv, if_neg hv]
  simp only [hfltbo]
  simp only [List.isEmpty_cons, if_false, Bool.false_eq_true, List.map_cons,
    List.map_nil, List.sum_cons, List.sum_nil, add_zero, List.length_cons,
    List.length_nil, zero_add, Nat.cast_one, mul_one]
  by_cases hil : s.incomeLimit.type = IncomeLimitType.tiered
  · obtain ⟨t0, rest, hts, hlt⟩ := htier hil
    rw [highSchoolAmountPerYear_first_tier s income t0 rest hil hts hlt,
      highSchoolMaxAmountPerYear_tiered s t0 rest hil hts,
      hsReceived_eq _ _ _ _ hcond hage]
    exact interval_conservation _ _ _ _ hcond
  · rw [highSchoolAmountPerYear_nontiered s income hil,
      highSchoolMaxAmountPerYear_nontiered s hil,
      hsReceived_eq _ _ _ _ hcond hage]
    exact interval_conservation _ _ _ _ hcond

-- Conservation for generic fixed-amount continuous policies.
theorem conservation_generic (mc : List AgeMedicalCost) (s : Subsidy)
    (income : Int) (child : ChildInfo)
    (hv : s.amount ≠ Amount.variable)
    (hty1 : s.type ≠ SubsidyType.medical_expense)
    (hty2 : s.type ≠ SubsidyType.childcare_fee)
    (hty3 : s.type ≠ SubsidyType.high_school_tuition)
    (hcond : s.childCondition.minAge.getD 0 ≤ s.childCondition.maxAge.getD 18)
    (hmatch : matchesChildCondition child s.childCondition = true)
    (hage : 1 ≤ child.age)
    (hfreq : s.frequency ≠ Frequency.once) :
    calculateMaxAmount mc s [child] =
      currentAmount mc s ⟨income, [child]⟩ +
        calculateReceivedAmount mc s [child] := by
  have hvar : ¬ isVariableAmountSubsidy s = true := by
    simp [isVariableAmountSubsidy, hv]
  have hbo := ((matchesChildCondition_iff child s.childCondition).1 hmatch).1
  have hflt : List.filter
      (fun c => matchesChildCondition c s.childCondition) [child] = [child] := by
    simp [hmatch]
  have hfltbo : List.filter
      (fun c => birthOrderOk s.childCondition.birthOrder c.birthOrder) [child] =
        [child] := by
    simp [hbo]
  unfold currentAmount
  rw [if_neg hvar]
  unfold calculateFixedAmount
  rw [if_neg hv, if_neg hty1, if_neg hty2, if_neg hty3]
  simp only [hflt]
  unfold calculateMaxAmount calculateReceivedAmount
  rw [if_neg hvar, if_neg hvar, if_neg hv, if_neg hv, if_neg hty1, if_neg hty1,
    if_neg hty2, if_neg hty2, if_neg hty3, if_neg hty3]
  simp only [hfltbo]
  simp only [List.isEmpty_cons, if_false, Bool.false_eq_true, List.map_cons,
    List.map_nil, List.sum_cons, List.sum_nil, add_zero, List.length_cons,
    List.length_nil, zero_add, Nat.cast_one, mul_one, if_neg hfreq,
    if_neg (by omega : ¬ child.age = 0)]
  exact interval_conservation _ _ _ _ hcond

-- Combined conservation statement, dispatching exactly as the engine does.
theorem conservation_core (mc : List AgeMedicalCost) (s : Subsidy)
    (income : Int) (child : ChildInfo)
    (hwf : SubsidyWF s)
    (hmatch : matchesChildCondition child s.childCondition = true)
    (hage : 1 ≤ child.age) (hage2 : child.age ≤ 18)
    (hfreq : s.frequency ≠ Frequency.once)
    (htier : s.type = SubsidyType.high_school_tuition →
      s.incomeLimit.type = IncomeLimitType.tiered →
      ∃ t0 rest, s.incomeLimit.tiers = Option.some (t0 :: rest) ∧
        income < t0.threshold) :
    calculateMaxAmount mc s [child] =
      currentAmount mc s ⟨income, [child]⟩ +
        calculateReceivedAmount mc s [child] := by
  obtain ⟨hbands, hamt, htiers, hcond⟩ := hwf
  by_cases hv : s.amount = Amount.variable
  · exact conservation_variable mc s income child hv
      (fun r hr => (hbands r hr).2.1) hage hage2
  · by_cases h1 : s.type = SubsidyType.medical_expense
    · exact conservation_medical mc s income child hv h1 hmatch hage
    · by_cases h2 : s.type = SubsidyType.childcare_fee
      · rw [if_pos h2] at hcond
        exact conservation_childcare_fee mc s income child hv h2 hcond.2
          hmatch hage
      · by_cases h3 : s.type = SubsidyType.high_school_tuition
        · rw [if_neg h2, if_pos h3] at hcond
          exact conservation_high_school mc s income child hv h3 hcond.2
            hmatch hage (htier h3)
        · rw [if_neg h2, if_neg h3] at hcond
          exact conservation_generic mc s income child hv h1 h2 h3 hcond.2
            hmatch hage hfreq

/-- C1 (amended): for a household with a single child aged 1-18 and a
well-formed catalog, every `AppliedPolicy` the engine produces for a
continuous-accrual (non-one-time) policy satisfies
`maxAmount = calculatedAmount + receivedAmount` — except high-school
tuition with a tiered income limit, where the identity additionally
requires the household income to fall under the first listed tier (the
counterexample shows it genuinely fails otherwise). -/
theorem claim_C1_conservation (mc : List AgeMedicalCost)
    (policies : List Subsidy) (prefecture : Prefecture)
    (income : Int) (child : ChildInfo)
    (hage : 1 ≤ child.age) (hage2 : child.age ≤ 18)
    (hwf : ∀ s ∈ policies, SubsidyWF s) :
    ∀ r, calculateSubsidiesCore mc policies prefecture ⟨income, [child]⟩ =
        Except.ok r →
      ∀ ap ∈ r.appliedPolicies, ap.policy.frequency ≠ Frequency.once →
        (ap.policy.type = SubsidyType.high_school_tuition →
          ap.policy.incomeLimit.type = IncomeLimitType.tiered →
          ∃ t0 rest, ap.policy.incomeLimit.tiers = Option.some (t0 :: rest) ∧
            income < t0.threshold) →
        ap.maxAmount = ap.calculatedAmount + ap.receivedAmount := by
  intro r hr ap hap hfreq htier
  rw [calculateSubsidiesCore_eq] at hr
  cases hr
  simp only [List.mem_map] at hap
  obtain ⟨s, hs, rfl⟩ := hap
  obtain ⟨hpol, hcalc, hmax, hrecv⟩ :=
    calculateSubsidyAmount_fields mc s ⟨income, [child]⟩ _
      (appliedPolicyOf_spec mc s ⟨income, [child]⟩)
  have hs' : s ∈ policies :=
    (List.mem_filter.1
      ((List.mem_filter.1 hs).1 :
        s ∈ filterByIncomeLimit policies income)).1
  have hmatch : matchesChildCondition child s.childCondition = true := by
    have := (List.mem_filter.1 hs).2
    simp only [List.any_cons, List.any_nil, Bool.or_false] at this
    exact this
  rw [hpol] at hfreq htier
  rw [hmax, hcalc, hrecv]
  exact conservation_core mc s income child (hwf s hs') hmatch hage hage2
    hfreq htier

/-- C1 counterexample: with the tiered high-school policy, household
income 5,500,000 (which matches the second listed tier) and one child aged
16, the engine (income filter passes, child filter passes, all three
amounts computed) produces an `AppliedPolicy` for a continuous policy with
`maxAmount = 800000` but `calculatedAmount + receivedAmount = 242000`. -/
theorem claim_C1_conservation_counterexample :
    calculateSubsidiesCore [] [tieredHighSchoolPolicy] Prefecture.saitama
        ⟨5500000, [⟨16, BirthOrder.first⟩]⟩ =
      Except.ok
        { prefecture := Prefecture.saitama
          appliedPolicies :=
            [{ policy := tieredHighSchoolPolicy
               calculatedAmount := 42000
               yearsApplied := 3
               ageRange := Option.some ⟨16, 18, 3⟩
               maxAmount := 800000
               receivedAmount := 200000 }]
          totalAmount := 42000
          totalMaxAmount := 800000
          rank := 0 } ∧
    tieredHighSchoolPolicy.frequency ≠ Frequency.once ∧
    (800000 : Int) ≠ 42000 + 200000 := by
  decide

theorem claim_C1_conservation_witness :
    lunchAppliedPolicy.maxAmount =
      lunchAppliedPolicy.calculatedAmount + lunchAppliedPolicy.receivedAmount :=
  claim_C1_conservation [] [monthlyLunchPolicy] Prefecture.tokyo
    0 ⟨10, BirthOrder.first⟩ (by decide) (by decide) (by decide)
    lunchResult (by decide) lunchAppliedPolicy (by decide) (by decide)
    (fun hty => absurd hty (by decide))

-- ==========================================
-- Identity-at-birth infrastructure (claim C5)
-- ==========================================

theorem sum_map_eq_zero {α : Type _} (l : List α) (f : α → Int)
    (h : ∀ x ∈ l, f x = 0) : (l.map f).sum = 0 := by
  induction l with
  | nil => rfl
  | cons a as ih =>
      simp only [List.map_cons, List.sum_cons, h a (by simp),
        ih (fun x hx => h x (by simp [hx])), add_zero]

theorem sum_map_congr {α : Type _} (l : List α) (f g : α → Int)
    (h : ∀ x ∈ l, f x = g x) : (l.map f).sum = (l.map g).sum := by
  rw [List.map_congr_left h]

theorem sum_map_const_int {α : Type _} (l : List α) (k : Int) :
    (l.map (fun _ => k)).sum = k * l.length := by
  induction l with
  | nil => simp
  | cons a as ih =>
      simp only [List.map_cons, List.sum_cons, ih, List.length_cons]
      push_cast
      ring

-- When the policy band overlaps childhood, the filter-mode predicate
-- degenerates to the birth-order-only predicate.
theorem filter_matches_eq_filter_bo (children : List ChildInfo)
    (cond : ChildCondition)
    (hmin : cond.minAge.getD 0 ≤ 18) (hmax : 0 ≤ cond.maxAge.getD 18) :
    children.filter (fun c => matchesChildCondition c cond) =
      children.filter (fun c => birthOrderOk cond.birthOrder c.birthOrder) := by
  apply List.filter_congr
  intro c _
  unfold matchesChildCondition
  cases hbo : birthOrderOk cond.birthOrder c.birthOrder
  · simp
  · simp only [if_true]
    rw [if_neg (by omega)]

-- Every calculator reports zero received entitlement for a household
-- whose children are all newborns.
theorem received_zero (mc : List AgeMedicalCost) (s : Subsidy)
    (children : List ChildInfo)
    (hages : ∀ c ∈ children, c.age = 0)
    (hwf : SubsidyWF s) :
    calculateReceivedAmount mc s children = 0 := by
  obtain ⟨hbands, hamt, htiers, hcond⟩ := hwf
  unfold calculateReceivedAmount
  by_cases hv : isVariableAmountSubsidy s = true
  · rw [if_pos hv]
    exact sum_map_eq_zero _ _ (fun c hc => by rw [if_pos (hages c hc)])
  · rw [if_neg hv]
    have hvv : ¬ s.amount = Amount.variable := by
      simp [isVariableAmountSubsidy] at hv
      exact hv
    rw [if_neg hvv]
    by_cases h1 : s.type = SubsidyType.medical_expense
    · rw [if_pos h1]
      unfold calculateReceivedMedicalExpenseSubsidy
      by_cases hE : (children.filter
          (fun c => birthOrderOk s.childCondition.birthOrder c.birthOrder)).isEmpty
      · rw [if_pos hE]
      · rw [if_neg hE]
        exact sum_map_eq_zero _ _ (fun c hc => by
          rw [if_pos (hages c (List.mem_filter.1 hc).1)])
    · rw [if_neg h1]
      by_cases h2 : s.type = SubsidyType.childcare_fee
      · rw [if_pos h2]
        unfold calculateReceivedChildcareFeeSubsidy
        rw [if_neg hvv]
        by_cases hE : (children.filter
            (fun c => birthOrderOk s.childCondition.birthOrder c.birthOrder)).isEmpty
        · rw [if_pos hE]
        · rw [if_neg hE]
          exact sum_map_eq_zero _ _ (fun c hc => by
            rw [if_pos (hages c (List.mem_filter.1 hc).1)])
      · rw [if_neg h2]
        by_cases h3 : s.type = SubsidyType.high_school_tuition
        · rw [if_pos h3]
          unfold calculateReceivedHighSchoolTuition
          rw [if_neg hvv]
          by_cases hE : (children.filter
              (fun c => birthOrderOk s.childCondition.birthOrder c.birthOrder)).isEmpty
          · rw [if_pos hE]
          · rw [if_neg hE]
            exact sum_map_eq_zero _ _ (fun c hc => by
              rw [if_pos (Or.inl (hages c (List.mem_filter.1 hc).1))])
        · rw [if_neg h3]
          by_cases hE : (children.filter
              (fun c => birthOrderOk s.childCondition.birthOrder c.birthOrder)).isEmpty
          · rw [if_pos hE]
          · rw [if_neg hE]
            rw [if_neg h2, if_neg h3] at hcond
            by_cases ho : s.frequency = Frequency.once
            · rw [if_pos ho]
              have hnil : (children.filter
                  (fun c => birthOrderOk s.childCondition.birthOrder c.birthOrder)).filter
                    (fun c => decide (c.age > s.childCondition.maxAge.getD 18)) = [] := by
                rw [List.filter_eq_nil_iff]
                intro c hc
                have := hages c (List.mem_filter.1 hc).1
                simp only [decide_eq_true_eq]
                omega
              rw [hnil]
              simp
            · rw [if_neg ho]
              exact sum_map_eq_zero _ _ (fun c hc => by
                rw [if_pos (hages c (List.mem_filter.1 hc).1)])

theorem bandRemainingAmount_age0 (r : AgeBasedAmount)
    (h0 : 0 ≤ r.minAge) (h1 : r.minAge ≤ r.maxAge) :
    bandRemainingAmount 0 r = bandFullAmount r := by
  unfold bandRemainingAmount bandFullAmount calculateYearsFromCurrentAge
  have hinner : (if (0:Int) > r.maxAge then (0:Int)
      else r.maxAge - max 0 r.minAge + 1) = r.maxAge - r.minAge + 1 := by
    rw [if_neg (by omega), max_eq_right h0]
  rw [hinner, if_pos (by omega)]

theorem sum_bands_rem_zero (bands : List AgeBasedAmount)
    (h : ∀ r ∈ bands, 0 ≤ r.minAge ∧ r.minAge ≤ r.maxAge) :
    (bands.map (bandRemainingAmount 0)).sum = (bands.map bandFullAmount).sum :=
  sum_map_congr _ _ _ (fun r hr => bandRemainingAmount_age0 r (h r hr).1 (h r hr).2)

theorem sum_if_years_const (E : List ChildInfo) (ann minD maxD : Int)
    (h0 : 0 ≤ minD) (h1 : minD ≤ maxD)
    (hages : ∀ c ∈ E, c.age = 0) :
    (E.map (fun c =>
      if calculateYearsFromCurrentAge c.age minD maxD > 0 then
        ann * calculateYearsFromCurrentAge c.age minD maxD else 0)).sum =
      ann * (maxD - minD + 1) * E.length := by
  have hpt : ∀ c ∈ E,
      (if calculateYearsFromCurrentAge c.age minD maxD > 0 then
        ann * calculateYearsFromCurrentAge c.age minD maxD else 0) =
        ann * (maxD - minD + 1) := by
    intro c hc
    rw [hages c hc]
    unfold calculateYearsFromCurrentAge
    have hinner : (if (0:Int) > maxD then (0:Int)
        else maxD - max 0 minD + 1) = maxD - minD + 1 := by
      rw [if_neg (by omega), max_eq_right h0]
    rw [hinner, if_pos (by omega)]
  rw [sum_map_congr E _ _ hpt, sum_map_const_int]

theorem sum_if_years_once (E : List ChildInfo) (ann minD maxD : Int)
    (h0 : 0 ≤ minD) (h1 : minD ≤ maxD)
    (hages : ∀ c ∈ E, c.age = 0) :
    (E.map (fun c =>
      if calculateYearsFromCurrentAge c.age minD maxD > 0 then ann else 0)).sum =
      ann * E.length := by
  have hpt : ∀ c ∈ E,
      (if calculateYearsFromCurrentAge c.age minD maxD > 0 then ann else 0) =
        ann := by
    intro c hc
    rw [hages c hc]
    unfold calculateYearsFromCurrentAge
    have hinner : (if (0:Int) > maxD then (0:Int)
        else maxD - max 0 minD + 1) = maxD - minD + 1 := by
      rw [if_neg (by omega), max_eq_right h0]
    rw [hinner, if_pos (by omega)]
  rw [sum_map_congr E _ _ hpt, sum_map_const_int]

-- At age 0 the maximum entitlement coincides with the calculated (still
-- receivable) entitlement, provided a tiered high-school income limit
-- resolves to its first listed tier.
theorem max_eq_current_age0 (mc : List AgeMedicalCost) (s : Subsidy)
    (income : Int) (children : List ChildInfo)
    (hwf : SubsidyWF s)
    (hages : ∀ c ∈ children, c.age = 0)
    (hsome : ∃ c ∈ children, matchesChildCondition c s.childCondition = true)
    (htier : s.type = SubsidyType.high_school_tuition →
      s.incomeLimit.type = IncomeLimitType.tiered →
      ∃ t0 rest, s.incomeLimit.tiers = Option.some (t0 :: rest) ∧
        income < t0.threshold) :
    calculateMaxAmount mc s children =
      currentAmount mc s ⟨income, children⟩ := by
  obtain ⟨hbands, hamt, htiers, hcond⟩ := hwf
  obtain ⟨c0, hc0, hm0⟩ := hsome
  obtain ⟨hbo0, hminle, hmaxge⟩ :=
    (matchesChildCondition_iff c0 s.childCondition).1 hm0
  have hfeq := filter_matches_eq_filter_bo children s.childCondition hminle hmaxge
  have hmemE : c0 ∈ children.filter
      (fun c => matchesChildCondition c s.childCondition) :=
    List.mem_filter.2 ⟨hc0, hm0⟩
  have hne : ¬ (children.filter
      (fun c => matchesChildCondition c s.childCondition)).isEmpty = true := by
    intro h
    rw [List.isEmpty_iff] at h
    rw [h] at hmemE
    exact absurd hmemE (List.not_mem_nil c0)
  have hneB : ¬ (children.filter
      (fun c => birthOrderOk s.childCondition.birthOrder c.birthOrder)).isEmpty = true := by
    rw [← hfeq]
    exact hne
  have hagesE : ∀ c ∈ children.filter
      (fun c => birthOrderOk s.childCondition.birthOrder c.birthOrder),
      c.age = 0 :=
    fun c hc => hages c (List.mem_filter.1 hc).1
  by_cases hv : isVariableAmountSubsidy s = true
  · unfold calculateMaxAmount currentAmount
    rw [if_pos hv, if_pos hv]
    by_cases hca : s.type = SubsidyType.childcare_allowance
    · rw [if_pos hca]
      unfold calculateChildcareAllowance
      apply sum_map_congr
      intro c hc
      by_cases hb3 : c.birthOrder = BirthOrder.third_or_more
      · rw [if_pos ⟨hca, hb3⟩, if_pos hb3, hages c hc]
        decide
      · rw [if_neg (by simp [hb3]), if_neg hb3, hages c hc]
        exact (sum_bands_rem_zero s.ageBasedAmounts
          (fun r hr => ⟨(hbands r hr).1, (hbands r hr).2.1⟩)).symm
    · rw [if_neg hca]
      unfold calculateVariableAmount
      apply sum_map_congr
      intro c hc
      rw [if_neg (by simp [hca]), hages c hc]
      exact (sum_bands_rem_zero s.ageBasedAmounts
        (fun r hr => ⟨(hbands r hr).1, (hbands r hr).2.1⟩)).symm
  · have hvv : ¬ s.amount = Amount.variable := by
      simp [isVariableAmountSubsidy] at hv
      exact hv
    unfold calculateMaxAmount currentAmount
    rw [if_neg hv, if_neg hv, if_neg hvv]
    by_cases h1 : s.type = SubsidyType.medical_expense
    · rw [if_pos h1]
      have hfix : calculateFixedAmount mc s ⟨income, children⟩ =
          Except.ok (calculateMedicalExpenseSubsidy mc s ⟨income, children⟩) := by
        unfold calculateFixedAmount
        rw [if_neg hvv, if_pos h1]
      rw [hfix]
      unfold calculateMaxMedicalExpenseSubsidy calculateMedicalExpenseSubsidy
      simp only [hfeq]
      rw [if_neg hneB, if_neg hneB]
      apply sum_map_congr
      intro c hc
      rw [hagesE c hc]
    · rw [if_neg h1]
      by_cases h2 : s.type = SubsidyType.childcare_fee
      · rw [if_pos h2] at hcond
        rw [if_pos h2]
        have hfix : calculateFixedAmount mc s ⟨income, children⟩ =
            calculateChildcareFeeSubsidy s ⟨income, children⟩ := by
          unfold calculateFixedAmount
          rw [if_neg hvv, if_neg h1, if_pos h2]
        rw [hfix]
        unfold calculateMaxChildcareFeeSubsidy calculateChildcareFeeSubsidy
        rw [if_neg hvv, if_neg hvv]
        simp only [hfeq]
        rw [if_neg hneB, if_neg hneB]
        simp only
        exact (sum_if_years_const _ _ _ _ hcond.1 hcond.2 hagesE).symm
      · rw [if_neg h2]
        by_cases h3 : s.type = SubsidyType.high_school_tuition
        · rw [if_neg h2, if_pos h3] at hcond
          rw [if_pos h3]
          have hfix : calculateFixedAmount mc s ⟨income, children⟩ =
              calculateHighSchoolTuition s ⟨income, children⟩ := by
            unfold calculateFixedAmount
            rw [if_neg hvv, if_neg h1, if_neg h2, if_pos h3]
          rw [hfix]
          unfold calculateMaxHighSchoolTuition calculateHighSchoolTuition
          rw [if_neg hvv, if_neg hvv]
          simp only [hfeq]
          rw [if_neg hneB, if_neg hneB]
          simp only
          by_cases hil : s.incomeLimit.type = IncomeLimitType.tiered
          · obtain ⟨t0, rest, hts, hlt⟩ := htier h3 hil
            rw [highSchoolAmountPerYear_first_tier s income t0 rest hil hts hlt,
              highSchoolMaxAmountPerYear_tiered s t0 rest hil hts]
            exact (sum_if_years_const _ _ _ _ hcond.1 hcond.2 hagesE).symm
          · rw [highSchoolAmountPerYear_nontiered s income hil,
              highSchoolMaxAmountPerYear_nontiered s hil]
            exact (sum_if_years_const _ _ _ _ hcond.1 hcond.2 hagesE).symm
        · rw [if_neg h3]
          rw [if_neg h2, if_neg h3] at hcond
          have hfix : calculateFixedAmount mc s ⟨income, children⟩ =
              Except.ok
                { amount :=
                    ((children.filter
                      (fun c => matchesChildCondition c s.childCondition)).map
                        (fun child =>
                          if calculateYearsFromCurrentAge child.age
                              (s.childCondition.minAge.getD 0)
                              (s.childCondition.maxAge.getD 18) > 0 then
                            if s.frequency = Frequency.once then
                              calculateAmountByFrequency s.amount.val s.frequency
                            else
                              calculateAmountByFrequency s.amount.val s.frequency *
                                calculateYearsFromCurrentAge child.age
                                  (s.childCondition.minAge.getD 0)
                                  (s.childCondition.maxAge.getD 18)
                          else 0)).sum
                  years :=
                    (children.filter
                      (fun c => matchesChildCondition c s.childCondition)).foldl
                        (fun m child =>
                          if calculateYearsFromCurrentAge child.age
                              (s.childCondition.minAge.getD 0)
                              (s.childCondition.maxAge.getD 18) > 0 then
                            if s.frequency = Frequency.once then max m 1
                            else max m (calculateYearsFromCurrentAge child.age
                              (s.childCondition.minAge.getD 0)
                              (s.childCondition.maxAge.getD 18))
                          else m) 0
                  ageRange :=
                    match children.filter
                        (fun c => matchesChildCondition c s.childCondition) with
                    | child :: _ =>
                        Option.some (calculateAgeRangeInfo child.age
                          (s.childCondition.minAge.getD 0)
                          (s.childCondition.maxAge.getD 18))
                    | [] => Option.none } := by
            unfold calculateFixedAmount
            rw [if_neg hvv, if_neg h1, if_neg h2, if_neg h3, if_neg hne]
          rw [hfix]
          simp only [hfeq]
          rw [if_neg hneB]
          by_cases ho : s.frequency = Frequency.once
          · simp only [if_pos ho]
            exact (sum_if_years_once _ _ _ _ hcond.1 hcond.2 hagesE).symm
          · simp only [if_neg ho]
            exact (sum_if_years_const _ _ _ _ hcond.1 hcond.2 hagesE).symm

/-- C5 (amended): for a household whose children are all aged 0 and a
well-formed catalog, every `AppliedPolicy` the engine produces has
`receivedAmount = 0`; and `maxAmount = calculatedAmount` holds whenever a
tiered high-school income limit resolves to its first listed tier (the
counterexample shows the identity genuinely fails otherwise; all other
policy shapes satisfy it unconditionally). -/
theorem claim_C5_identity_at_birth (mc : List AgeMedicalCost)
    (policies : List Subsidy) (prefecture : Prefecture)
    (income : Int) (children : List ChildInfo)
    (hages : ∀ c ∈ children, c.age = 0)
    (hwf : ∀ s ∈ policies, SubsidyWF s) :
    ∀ r, calculateSubsidiesCore mc policies prefecture ⟨income, children⟩ =
        Except.ok r →
      ∀ ap ∈ r.appliedPolicies,
        ap.receivedAmount = 0 ∧
        ((ap.policy.type = SubsidyType.high_school_tuition →
          ap.policy.incomeLimit.type = IncomeLimitType.tiered →
          ∃ t0 rest, ap.policy.incomeLimit.tiers = Option.some (t0 :: rest) ∧
            income < t0.threshold) →
          ap.maxAmount = ap.calculatedAmount) := by
  intro r hr ap hap
  rw [calculateSubsidiesCore_eq] at hr
  cases hr
  simp only [List.mem_map] at hap
  obtain ⟨s, hs, rfl⟩ := hap
  obtain ⟨hpol, hcalc, hmax, hrecv⟩ :=
    calculateSubsidyAmount_fields mc s ⟨income, children⟩ _
      (appliedPolicyOf_spec mc s ⟨income, children⟩)
  have hs' : s ∈ policies :=
    (List.mem_filter.1
      ((List.mem_filter.1 hs).1 :
        s ∈ filterByIncomeLimit policies income)).1
  have hsome : ∃ c ∈ children, matchesChildCondition c s.childCondition = true := by
    have hany := (List.mem_filter.1 hs).2
    simpa [List.any_eq_true] using hany
  constructor
  · rw [hrecv]
    exact received_zero mc s children hages (hwf s hs')
  · intro htier
    rw [hpol] at htier
    rw [hmax, hcalc]
    exact max_eq_current_age0 mc s income children (hwf s hs') hages hsome htier

/-- C5 counterexample: with the tiered high-school policy and household
income 5,500,000 (matching the second listed tier), a first-born child
aged 0 gets `receivedAmount = 0` as claimed, but
`maxAmount = 800000 ≠ 56000 = calculatedAmount`: the maximum is priced at
the first tier while the calculated amount uses the income-matched tier. -/
theorem claim_C5_identity_at_birth_counterexample :
    calculateSubsidiesCore [] [tieredHighSchoolPolicy] Prefecture.saitama
        ⟨5500000, [⟨0, BirthOrder.first⟩]⟩ =
      Except.ok
        { prefecture := Prefecture.saitama
          appliedPolicies :=
            [{ policy := tieredHighSchoolPolicy
               calculatedAmount := 56000
               yearsApplied := 4
               ageRange := Option.some ⟨15, 18, 4⟩
               maxAmount := 800000
               receivedAmount := 0 }]
          totalAmount := 56000
          totalMaxAmount := 800000
          rank := 0 } ∧
    (800000 : Int) ≠ 56000 := by
  decide

theorem claim_C5_identity_at_birth_witness :
    lunchAppliedPolicyAge0.receivedAmount = 0 ∧
    lunchAppliedPolicyAge0.maxAmount = lunchAppliedPolicyAge0.calculatedAmount :=
  have h := claim_C5_identity_at_birth [] [monthlyLunchPolicy] Prefecture.tokyo
    0 [⟨0, BirthOrder.first⟩] (by decide) (by decide)
    lunchResultAge0 (by decide) lunchAppliedPolicyAge0 (by decide)
  ⟨h.1, h.2 (fun hty => absurd hty (by decide))⟩

-- ==========================================
-- Age monotonicity infrastructure (claim C4)
-- ==========================================

theorem calculateYearsFromCurrentAge_antitone (minA maxA a b : Int)
    (h1 : minA ≤ maxA) (hab : a ≤ b) :
    calculateYearsFromCurrentAge b minA maxA ≤
      calculateYearsFromCurrentAge a minA maxA := by
  unfold calculateYearsFromCurrentAge
  split_ifs <;> omega

theorem calculateAmountByFrequency_nonneg (amount : Int) (f : Frequency)
    (h : 0 ≤ amount) : 0 ≤ calculateAmountByFrequency amount f := by
  cases f <;> simp [calculateAmountByFrequency] <;> omega

theorem clamp_mul_antitone (c Ya Yb : Int) (hc : 0 ≤ c) (h : Yb ≤ Ya) :
    (if Yb > 0 then c * Yb else 0) ≤ (if Ya > 0 then c * Ya else 0) := by
  by_cases hYb : Yb > 0
  · rw [if_pos hYb, if_pos (by omega)]
    exact mul_le_mul_of_nonneg_left h hc
  · rw [if_neg hYb]
    by_cases hYa : Ya > 0
    · rw [if_pos hYa]
      exact mul_nonneg hc (by omega)
    · rw [if_neg hYa]

theorem clamp_const_antitone (c Ya Yb : Int) (hc : 0 ≤ c) (h : Yb ≤ Ya) :
    (if Yb > 0 then c else 0) ≤ (if Ya > 0 then c else 0) := by
  by_cases hYb : Yb > 0
  · rw [if_pos hYb, if_pos (by omega)]
  · rw [if_neg hYb]
    by_cases hYa : Ya > 0
    · rw [if_pos hYa]
      exact hc
    · rw [if_neg hYa]

theorem medicalTermQ_nonneg (mc : List AgeMedicalCost) (pref : Prefecture)
    (age : Int) (hmc : ∀ c ∈ mc, 0 ≤ c.annualCost) :
    0 ≤ medicalTermQ mc pref age := by
  unfold medicalTermQ
  rcases hfind : getMedicalCostByAge mc age with _ | c
  · exact le_refl 0
  · have hmem : c ∈ mc := List.mem_of_find?_eq_some hfind
    have hc : (0:ℚ) ≤ (c.annualCost : ℚ) := by
      exact_mod_cast hmc c hmem
    apply mul_nonneg (mul_nonneg hc ?_) ?_
    · unfold getSelfPaymentRate
      split_ifs <;> norm_num
    · unfold getAssistanceRate
      cases pref <;> norm_num

theorem medicalSumQ_nonneg (mc : List AgeMedicalCost) (pref : Prefecture)
    (lo hi : Int) (hmc : ∀ c ∈ mc, 0 ≤ c.annualCost) :
    0 ≤ medicalSumQ mc pref lo hi := by
  unfold medicalSumQ
  exact Finset.sum_nonneg (fun j _ => medicalTermQ_nonneg mc pref j hmc)

theorem round_nonneg_of_nonneg (x : ℚ) (h : 0 ≤ x) : 0 ≤ round x := by
  rw [round_eq]
  exact Int.le_floor.2 (by push_cast; linarith)

theorem round_le_round_of_le (x y : ℚ) (h : x ≤ y) : round x ≤ round y := by
  rw [round_eq, round_eq]
  exact Int.floor_le_floor (by linarith)

theorem calculateMedicalSubsidy_nonneg (mc : List AgeMedicalCost) (a : Int)
    (pref : Prefecture) (hmc : ∀ c ∈ mc, 0 ≤ c.annualCost) :
    0 ≤ calculateMedicalSubsidy mc a pref := by
  unfold calculateMedicalSubsidy
  by_cases h1 : a < 0 ∨ a > 18
  · rw [if_pos h1]
  · rw [if_neg h1]
    simp only [getAssistanceAge]
    by_cases h2 : a > 18
    · rw [if_pos h2]
    · rw [if_neg h2]
      exact round_nonneg_of_nonneg _ (medicalSumQ_nonneg mc pref a _ hmc)

theorem calculateMedicalSubsidy_antitone (mc : List AgeMedicalCost)
    (pref : Prefecture) (a b : Int)
    (hmc : ∀ c ∈ mc, 0 ≤ c.annualCost) (ha : 0 ≤ a) (hab : a ≤ b) :
    calculateMedicalSubsidy mc b pref ≤ calculateMedicalSubsidy mc a pref := by
  by_cases hb18 : b > 18
  · have hb : calculateMedicalSubsidy mc b pref = 0 := by
      unfold calculateMedicalSubsidy
      rw [if_pos (Or.inr hb18)]
    rw [hb]
    exact calculateMedicalSubsidy_nonneg mc a pref hmc
  · have ha18 : ¬ (a < 0 ∨ a > 18) := by omega
    have hb18' : ¬ (b < 0 ∨ b > 18) := by omega
    unfold calculateMedicalSubsidy
    rw [if_neg ha18, if_neg hb18']
    simp only [getAssistanceAge]
    rw [if_neg (by omega), if_neg (by omega)]
    apply round_le_round_of_le
    unfold medicalSumQ
    apply Finset.sum_le_sum_of_subset_of_nonneg
    · exact Finset.Icc_subset_Icc hab (le_refl 18)
    · intro j _ _
      exact medicalTermQ_nonneg mc pref j hmc

theorem bandRemainingAmount_antitone (r : AgeBasedAmount) (a b : Int)
    (h1 : r.minAge ≤ r.maxAge) (hamt : 0 ≤ r.amount) (hab : a ≤ b) :
    bandRemainingAmount b r ≤ bandRemainingAmount a r := by
  unfold bandRemainingAmount
  exact clamp_mul_antitone _ _ _
    (calculateAmountByFrequency_nonneg _ _ hamt)
    (calculateYearsFromCurrentAge_antitone _ _ a b h1 hab)

theorem highSchoolAmountPerYear_nonneg (s : Subsidy) (income : Int)
    (hamt : 0 ≤ s.amount.val)
    (htiers : ∀ t ∈ s.incomeLimit.tiers.getD [], 0 ≤ t.amount) :
    0 ≤ highSchoolAmountPerYear s income := by
  unfold highSchoolAmountPerYear
  rcases hil : s.incomeLimit.type with _ | _ | _
  · rcases s.incomeLimit.tiers with _ | (_ | ⟨t, ts⟩) <;>
      exact calculateAmountByFrequency_nonneg _ _ hamt
  · rcases s.incomeLimit.tiers with _ | (_ | ⟨t, ts⟩) <;>
      exact calculateAmountByFrequency_nonneg _ _ hamt
  · rcases hts : s.incomeLimit.tiers with _ | ts
    · exact calculateAmountByFrequency_nonneg _ _ hamt
    · rcases hfind : ts.find? (fun t => income < t.threshold) with _ | t
      · simp only [hfind]
        exact le_refl 0
      · simp only [hfind]
        refine htiers t ?_
        rw [hts]
        exact List.mem_of_find?_eq_some hfind

theorem currentAmount_antitone (mc : List AgeMedicalCost) (s : Subsidy)
    (income : Int) (bo : BirthOrder) (a b : Int)
    (hmc : ∀ c ∈ mc, 0 ≤ c.annualCost)
    (hwf : SubsidyWF s)
    (ha : 0 ≤ a) (hab : a ≤ b) :
    currentAmount mc s ⟨income, [⟨b, bo⟩]⟩ ≤
      currentAmount mc s ⟨income, [⟨a, bo⟩]⟩ := by
  obtain ⟨hbands, hamt, htiers, hcond⟩ := hwf
  by_cases hv : isVariableAmountSubsidy s = true
  · unfold currentAmount
    rw [if_pos hv, if_pos hv]
    by_cases hca : s.type = SubsidyType.childcare_allowance
    · rw [if_pos hca, if_pos hca]
      unfold calculateChildcareAllowance
      simp only [List.map_cons, List.map_nil, List.sum_cons, List.sum_nil,
        add_zero]
      by_cases hb3 : bo = BirthOrder.third_or_more
      · rw [if_pos hb3, if_pos hb3]
        refine mul_le_mul_of_nonneg_left ?_ (by norm_num
          [CHILDCARE_ALLOWANCE_THIRD_CHILD_MONTHLY])
        exact calculateYearsFromCurrentAge_antitone 0 18 a b (by norm_num) hab
      · rw [if_neg hb3, if_neg hb3]
        refine List.sum_le_sum ?_
        intro r hr
        exact bandRemainingAmount_antitone r a b (hbands r hr).2.1
          (hbands r hr).2.2 hab
    · rw [if_neg hca, if_neg hca]
      unfold calculateVariableAmount
      simp only [List.map_cons, List.map_nil, List.sum_cons, List.sum_nil,
        add_zero]
      refine List.sum_le_sum ?_
      intro r hr
      exact bandRemainingAmount_antitone r a b (hbands r hr).2.1
        (hbands r hr).2.2 hab
  · have hvv : ¬ s.amount = Amount.variable := by
      simp [isVariableAmountSubsidy] at hv
      exact hv
    have hann : 0 ≤ calculateAmountByFrequency s.amount.val s.frequency :=
      calculateAmountByFrequency_nonneg _ _ hamt
    by_cases hm : matchesChildCondition ⟨a, bo⟩ s.childCondition = true
    case neg =>
      have hmB : ¬ matchesChildCondition ⟨b, bo⟩ s.childCondition = true := hm
      have hfa : List.filter
          (fun c => matchesChildCondition c s.childCondition) [⟨a, bo⟩] = [] := by
        simp [hm]
      have hfb : List.filter
          (fun c => matchesChildCondition c s.childCondition) [⟨b, bo⟩] = [] := by
        simp [hmB]
      unfold currentAmount
      rw [if_neg hv, if_neg hv]
      unfold calculateFixedAmount calculateMedicalExpenseSubsidy
        calculateChildcareFeeSubsidy calculateHighSchoolTuition
      rw [if_neg hvv, if_neg hvv]
      simp only [hfa, hfb, List.isEmpty_nil, if_true]
      split_ifs <;> simp
    case pos =>
      have hmB : matchesChildCondition ⟨b, bo⟩ s.childCondition = true := hm
      have hfa : List.filter
          (fun c => matchesChildCondition c s.childCondition) [⟨a, bo⟩] =
            [⟨a, bo⟩] := by
        simp [hm]
      have hfb : List.filter
          (fun c => matchesChildCondition c s.childCondition) [⟨b, bo⟩] =
            [⟨b, bo⟩] := by
        simp [hmB]
      unfold currentAmount
      rw [if_neg hv, if_neg hv]
      by_cases h1 : s.type = SubsidyType.medical_expense
      · have hfixa : calculateFixedAmount mc s ⟨income, [⟨a, bo⟩]⟩ =
            Except.ok (calculateMedicalExpenseSubsidy mc s ⟨income, [⟨a, bo⟩]⟩) := by
          unfold calculateFixedAmount
          rw [if_neg hvv, if_pos h1]
        have hfixb : calculateFixedAmount mc s ⟨income, [⟨b, bo⟩]⟩ =
            Except.ok (calculateMedicalExpenseSubsidy mc s ⟨income, [⟨b, bo⟩]⟩) := by
          unfold calculateFixedAmount
          rw [if_neg hvv, if_pos h1]
        rw [hfixa, hfixb]
        unfold calculateMedicalExpenseSubsidy
        simp only [hfa, hfb, List.isEmpty_cons, if_false, Bool.false_eq_true,
          List.map_cons, List.map_nil, List.sum_cons, List.sum_nil, add_zero]
        exact calculateMedicalSubsidy_antitone mc s.prefecture a b hmc ha hab
      · by_cases h2 : s.type = SubsidyType.childcare_fee
        · rw [if_pos h2] at hcond
          have hfixa : calculateFixedAmount mc s ⟨income, [⟨a, bo⟩]⟩ =
              calculateChildcareFeeSubsidy s ⟨income, [⟨a, bo⟩]⟩ := by
            unfold calculateFixedAmount
            rw [if_neg hvv, if_neg h1, if_pos h2]
          have hfixb : calculateFixedAmount mc s ⟨income, [⟨b, bo⟩]⟩ =
              calculateChildcareFeeSubsidy s ⟨income, [⟨b, bo⟩]⟩ := by
            unfold calculateFixedAmount
            rw [if_neg hvv, if_neg h1, if_pos h2]
          rw [hfixa, hfixb]
          unfold calculateChildcareFeeSubsidy
          rw [if_neg hvv, if_neg hvv]
          simp only [hfa, hfb, List.isEmpty_cons, if_false, Bool.false_eq_true,
            List.map_cons, List.map_nil, List.sum_cons, List.sum_nil, add_zero]
          exact clamp_mul_antitone _ _ _ hann
            (calculateYearsFromCurrentAge_antitone _ _ a b hcond.2 hab)
        · by_cases h3 : s.type = SubsidyType.high_school_tuition
          · rw [if_neg h2, if_pos h3] at hcond
            have hfixa : calculateFixedAmount mc s ⟨income, [⟨a, bo⟩]⟩ =
                calculateHighSchoolTuition s ⟨income, [⟨a, bo⟩]⟩ := by
              unfold calculateFixedAmount
              rw [if_neg hvv, if_neg h1, if_neg h2, if_pos h3]
            have hfixb : calculateFixedAmount mc s ⟨income, [⟨b, bo⟩]⟩ =
                calculateHighSchoolTuition s ⟨income, [⟨b, bo⟩]⟩ := by
              unfold calculateFixedAmount
              rw [if_neg hvv, if_neg h1, if_neg h2, if_pos h3]
            rw [hfixa, hfixb]
            unfold calculateHighSchoolTuition
            rw [if_neg hvv, if_neg hvv]
            simp only [hfa, hfb, List.isEmpty_cons, if_false, Bool.false_eq_true,
              List.map_cons, List.map_nil, List.sum_cons, List.sum_nil, add_zero]
            exact clamp_mul_antitone _ _ _
              (highSchoolAmountPerYear_nonneg s income hamt htiers)
              (calculateYearsFromCurrentAge_antitone _ _ a b hcond.2 hab)
          · rw [if_neg h2, if_neg h3] at hcond
            have hfixa : calculateFixedAmount mc s ⟨income, [⟨a, bo⟩]⟩ =
                Except.ok
                  { amount :=
                      if calculateYearsFromCurrentAge a
                          (s.childCondition.minAge.getD 0)
                          (s.childCondition.maxAge.getD 18) > 0 then
                        if s.frequency = Frequency.once then
                          calculateAmountByFrequency s.amount.val s.frequency
                        else
                          calculateAmountByFrequency s.amount.val s.frequency *
                            calculateYearsFromCurrentAge a
                              (s.childCondition.minAge.getD 0)
                              (s.childCondition.maxAge.getD 18)
                      else 0
                    years :=
                      if calculateYearsFromCurrentAge a
                          (s.childCondition.minAge.getD 0)
                          (s.childCondition.maxAge.getD 18) > 0 then
                        if s.frequency = Frequency.once then max 0 1
                        else max 0 (calculateYearsFromCurrentAge a
                          (s.childCondition.minAge.getD 0)
                          (s.childCondition.maxAge.getD 18))
                      else 0
                    ageRange :=
                      Option.some (calculateAgeRangeInfo a
                        (s.childCondition.minAge.getD 0)
                        (s.childCondition.maxAge.getD 18)) } := by
              unfold calculateFixedAmount
              rw [if_neg hvv, if_neg h1, if_neg h2, if_neg h3]
              simp only [hfa, List.isEmpty_cons, if_false, Bool.false_eq_true,
                List.map_cons, List.map_nil, List.sum_cons, List.sum_nil,
                add_zero, List.foldl_cons, List.foldl_nil]
            have hfixb : calculateFixedAmount mc s ⟨income, [⟨b, bo⟩]⟩ =
                Except.ok
                  { amount :=
                      if calculateYearsFromCurrentAge b
                          (s.childCondition.minAge.getD 0)
                          (s.childCondition.maxAge.getD 18) > 0 then
                        if s.frequency = Frequency.once then
                          calculateAmountByFrequency s.amount.val s.frequency
                        else
                          calculateAmountByFrequency s.amount.val s.frequency *
                            calculateYearsFromCurrentAge b
                              (s.childCondition.minAge.getD 0)
                              (s.childCondition.maxAge.getD 18)
                      else 0
                    years :=
                      if calculateYearsFromCurrentAge b
                          (s.childCondition.minAge.getD 0)
                          (s.childCondition.maxAge.getD 18) > 0 then
                        if s.frequency = Frequency.once then max 0 1
                        else max 0 (calculateYearsFromCurrentAge b
                          (s.childCondition.minAge.getD 0)
                          (s.childCondition.maxAge.getD 18))
                      else 0
                    ageRange :=
                      Option.some (calculateAgeRangeInfo b
                        (s.childCondition.minAge.getD 0)
                        (s.childCondition.maxAge.getD 18)) } := by
              unfold calculateFixedAmount
              rw [if_neg hvv, if_neg h1, if_neg h2, if_neg h3]
              simp only [hfb, List.isEmpty_cons, if_false, Bool.false_eq_true,
                List.map_cons, List.map_nil, List.sum_cons, List.sum_nil,
                add_zero, List.foldl_cons, List.foldl_nil]
            rw [hfixa, hfixb]
            simp only
            by_cases ho : s.frequency = Frequency.once
            · simp only [if_pos ho]
              exact clamp_const_antitone _ _ _ hann
                (calculateYearsFromCurrentAge_antitone _ _ a b hcond.2 hab)
            · simp only [if_neg ho]
              exact clamp_mul_antitone _ _ _ hann
                (calculateYearsFromCurrentAge_antitone _ _ a b hcond.2 hab)

/-- C4: for a fixed jurisdiction's catalog (well-formed, non-negative
amounts and medical costs), a fixed household income and a single child of
fixed birth order, the per-jurisdiction `totalAmount` is non-increasing in
the child's age on 0..19. -/
theorem claim_C4_totalAmount_antitone (mc : List AgeMedicalCost)
    (policies : List Subsidy) (prefecture : Prefecture)
    (income : Int) (bo : BirthOrder) (a b : Int)
    (hmc : ∀ c ∈ mc, 0 ≤ c.annualCost)
    (hwf : ∀ s ∈ policies, SubsidyWF s)
    (ha : 0 ≤ a) (hab : a ≤ b) (hb : b ≤ 19) :
    ∀ ra rb,
      calculateSubsidiesCore mc policies prefecture ⟨income, [⟨a, bo⟩]⟩ =
        Except.ok ra →
      calculateSubsidiesCore mc policies prefecture ⟨income, [⟨b, bo⟩]⟩ =
        Except.ok rb →
      rb.totalAmount ≤ ra.totalAmount := by
  intro ra rb hra hrb
  rw [calculateSubsidiesCore_eq] at hra hrb
  cases hra
  cases hrb
  simp only
  have happ : applicablePolicies policies ⟨income, [⟨b, bo⟩]⟩ =
      applicablePolicies policies ⟨income, [⟨a, bo⟩]⟩ := rfl
  rw [happ]
  refine List.sum_le_sum ?_
  intro s hs
  have hs' : s ∈ policies :=
    (List.mem_filter.1
      ((List.mem_filter.1 hs).1 :
        s ∈ filterByIncomeLimit policies income)).1
  obtain ⟨-, hca, -, -⟩ :=
    calculateSubsidyAmount_fields mc s ⟨income, [⟨a, bo⟩]⟩ _
      (appliedPolicyOf_spec mc s ⟨income, [⟨a, bo⟩]⟩)
  obtain ⟨-, hcb, -, -⟩ :=
    calculateSubsidyAmount_fields mc s ⟨income, [⟨b, bo⟩]⟩ _
      (appliedPolicyOf_spec mc s ⟨income, [⟨b, bo⟩]⟩)
  rw [hca, hcb]
  exact currentAmount_antitone mc s income bo a b hmc (hwf s hs') ha hab

theorem claim_C4_totalAmount_antitone_witness :
    ({ prefecture := Prefecture.tokyo
       appliedPolicies :=
         [{ policy := monthlyLunchPolicy
            calculatedAmount := 720000
            yearsApplied := 12
            ageRange := Option.some ⟨7, 18, 12⟩
            maxAmount := 1140000
            receivedAmount := 420000 }]
       totalAmount := 720000
       totalMaxAmount := 1140000
       rank := 0 } : CalculationResult).totalAmount ≤
    ({ prefecture := Prefecture.tokyo
       appliedPolicies :=
         [{ policy := monthlyLunchPolicy
            calculatedAmount := 960000
            yearsApplied := 16
            ageRange := Option.some ⟨3, 18, 16⟩
            maxAmount := 1140000
            receivedAmount := 180000 }]
       totalAmount := 960000
       totalMaxAmount := 1140000
       rank := 0 } : CalculationResult).totalAmount :=
  claim_C4_totalAmount_antitone [] [monthlyLunchPolicy] Prefecture.tokyo
    0 BirthOrder.first 3 7 (by decide) (by decide) (by decide) (by decide)
    (by decide) _ _ (by decide) (by decide)

/-- C8: for ages 0-18, the medical-expense subsidy for one child is the
rounded sum, over each integer age from the current age up to the
jurisdiction's assistance ceiling, of
`annualMedicalCost(age) × selfPayRate(age) × assistanceRate(jurisdiction)`
(ages missing from the statistics table contribute a zero cost), where the
self-pay rate is 20% up to age 5 and 30% from age 6, and the assistance
rate is 100% for Tokyo, Saitama and Chiba and 0% for Kanagawa. -/
theorem claim_C8_medical_formula (mc : List AgeMedicalCost)
    (pref : Prefecture) (a : Int) (h0 : 0 ≤ a) (h18 : a ≤ 18) :
    (calculateMedicalSubsidy mc a pref =
      round (∑ j ∈ Finset.Icc a (getAssistanceAge pref),
        ((((getMedicalCostByAge mc j).map AgeMedicalCost.annualCost).getD 0 : Int) : ℚ) *
          getSelfPaymentRate j * getAssistanceRate pref)) ∧
    (∀ j : Int, j ≤ 5 → getSelfPaymentRate j = 2/10) ∧
    (∀ j : Int, 6 ≤ j → getSelfPaymentRate j = 3/10) ∧
    getAssistanceRate Prefecture.tokyo = 1 ∧
    getAssistanceRate Prefecture.saitama = 1 ∧
    getAssistanceRate Prefecture.chiba = 1 ∧
    getAssistanceRate Prefecture.kanagawa = 0 := by
  refine ⟨?_, ?_, ?_, rfl, rfl, rfl, rfl⟩
  · unfold calculateMedicalSubsidy
    rw [if_neg (by omega)]
    simp only [getAssistanceAge]
    rw [if_neg (by omega)]
    unfold medicalSumQ
    congr 1
    apply Finset.sum_congr rfl
    intro j _
    unfold medicalTermQ
    rcases hfind : getMedicalCostByAge mc j with _ | c
    · simp [hfind]
    · simp [hfind]
  · intro j hj
    unfold getSelfPaymentRate
    rw [if_pos hj]
  · intro j hj
    unfold getSelfPaymentRate
    rw [if_neg (by omega)]

theorem claim_C8_medical_formula_witness :
    calculateMedicalSubsidy [] 18 Prefecture.tokyo =
      round (∑ j ∈ Finset.Icc (18:ℤ) (getAssistanceAge Prefecture.tokyo),
        ((((getMedicalCostByAge [] j).map AgeMedicalCost.annualCost).getD 0 : Int) : ℚ) *
          getSelfPaymentRate j * getAssistanceRate Prefecture.tokyo) :=
  (claim_C8_medical_formula [] Prefecture.tokyo 18 (by decide) (by decide)).1
